import Mathlib

/-!
# Verification of the PaperSeek funnel pipeline

This file is a shallow embedding, in Lean 4, of the core logic of the
PaperSeek literature-review pipeline (`paper_researcher`), together with
theorems settling the specification claims about it.

Embedding conventions:
* SQLite rows of the `papers` table become the `Paper` structure; the table
  itself becomes a `Store` (a list of rows in insertion order, which is the
  order SQLite returns for the unordered `SELECT` queries used here).
* Network and LLM calls are opaque: each call site receives the call's
  outcome (parsed JSON, or an error) as an explicit argument.
* Python strings are Lean `String`s; the few Python string operations used
  by the code (`str.split`, `str.strip`, `in`, `startswith`) are defined
  below over the underlying character lists so that everything evaluates
  inside the kernel.
* `REAL` columns (relevance scores) are modelled as `ℚ`; the code only ever
  compares them, so exact rationals are a faithful carrier for the float
  values produced by JSON parsing.
* Timestamps (`datetime.now().isoformat()`) are modelled as an abstract
  `Nat` clock value passed in by the caller.
-/

/-! ## Python string primitives -/

/-- Python `s.split(sep)` for a single-character separator: splits on every
occurrence, keeping empty segments (`''.split('/') == ['']`). -/
def pyCharSplit (sep : Char) : List Char → List (List Char)
  | [] => [[]]
  | c :: cs =>
    let rest := pyCharSplit sep cs
    if c = sep then [] :: rest
    else
      match rest with
      | [] => [[c]]
      | r :: rs => (c :: r) :: rs

/-- `result.entry_id.split('/')[-1]` (searcher.py line 73 / line 122):
the last `/`-separated segment of a URL. -/
def lastSegment (s : String) : String :=
  ⟨((pyCharSplit '/' s.data).getLast?).getD []⟩

/-- `arxiv_id.split('v')[0]` guarded by `'v' in arxiv_id`
(searcher.py lines 123-124): drop everything from the first `v` on. -/
def stripVersion (s : String) : String :=
  if s.data.contains 'v' then ⟨((pyCharSplit 'v' s.data).head?).getD []⟩ else s

/-- The whitespace class of Python `str.strip()` / `str.isspace()`. -/
def pyIsSpace (c : Char) : Bool :=
  c = ' ' ∨ c = '\t' ∨ c = '\n' ∨ c = '\r' ∨ c = '\x0b' ∨ c = '\x0c'

/-- Python `s.strip()`: remove leading and trailing whitespace. -/
def pyStrip (s : String) : String :=
  ⟨((s.data.dropWhile pyIsSpace).reverse.dropWhile pyIsSpace).reverse⟩

/-- Python `sep.join(xs)`. -/
def joinSep (sep : String) : List String → String
  | [] => ""
  | [x] => x
  | x :: y :: xs => x ++ sep ++ joinSep sep (y :: xs)

/-! ## Data model: the `papers` table (core/db.py, `_init_db`)

One row per discovered paper.  The ten analysis text columns
(`problem_definition` … `innovation_ideas`, `analysis_result`) are carried
by the deep-analysis result structure `PaperAnalysis` below; of them the
row keeps `improvement_category`, the one the claims constrain.  `id` and
`created_at` are never read by the orchestration logic and are elided. -/

structure Paper where
  arxiv_id : String
  title : String
  authors : String
  abstract : String
  published_date : Option String
  arxiv_url : String
  pdf_url : Option String
  pdf_path : Option String
  status : String
  research_topic : Option String
  relevance_score : Option ℚ
  relevance_reason : Option String
  improvement_category : Option String
  search_session_id : Option Nat
  updated_at : Nat
  deriving Repr, DecidableEq

/-- The `papers` table: rows in insertion (rowid) order. -/
abbrev Store := List Paper

/-- A partial field map handed to `Database.update_paper`: `some v` means
the field is in the `updates` dict, `none` that it is absent. -/
structure PaperUpdates where
  status : Option String := none
  research_topic : Option String := none
  relevance_score : Option ℚ := none
  relevance_reason : Option String := none
  pdf_path : Option String := none
  improvement_category : Option String := none
  updated_at : Option Nat := none
  deriving Repr, DecidableEq

/-! ## Database operations (core/db.py) -/

/-- `Database.paper_exists` (db.py lines 122-141): with a session id the
check is scoped to `(arxiv_id, search_session_id)`, without one it is a
global check on `arxiv_id` alone. -/
def paperExists (st : Store) (arxivId : String) (sessionId : Option Nat) : Bool :=
  match sessionId with
  | some sid => st.any fun p => decide (p.arxiv_id = arxivId ∧ p.search_session_id = some sid)
  | none => st.any fun p => decide (p.arxiv_id = arxivId)

inductive DbError where
  | duplicateKey
  deriving Repr, DecidableEq

/-- `Database.add_paper` (db.py lines 143-162): a plain `INSERT`; the
`UNIQUE(arxiv_id, search_session_id)` table constraint makes it fail with
an integrity error on a duplicate key.  As in SQLite, rows whose
`search_session_id` is NULL never conflict. -/
def addPaper (st : Store) (p : Paper) : Except DbError Store :=
  match p.search_session_id with
  | none => .ok (st ++ [p])
  | some sid =>
    if st.any (fun q => decide (q.arxiv_id = p.arxiv_id ∧ q.search_session_id = some sid)) then
      .error .duplicateKey
    else .ok (st ++ [p])

/-- Setting a nullable column: a supplied value `v` stores `v` (non-NULL),
an absent field leaves the column as it was. -/
def mergeField (sup : Option α) (old : Option α) : Option α :=
  match sup with
  | some v => some v
  | none => old

/-- The merge performed by `UPDATE papers SET … WHERE arxiv_id = ?` on one
row: each supplied field overwrites, each absent field is untouched. -/
def applyUpdates (p : Paper) (u : PaperUpdates) : Paper :=
  { p with
    status := u.status.getD p.status
    research_topic := mergeField u.research_topic p.research_topic
    relevance_score := mergeField u.relevance_score p.relevance_score
    relevance_reason := mergeField u.relevance_reason p.relevance_reason
    pdf_path := mergeField u.pdf_path p.pdf_path
    improvement_category := mergeField u.improvement_category p.improvement_category
    updated_at := u.updated_at.getD p.updated_at }

/-- `Database.update_paper` (db.py lines 164-177): stamps
`updates['updated_at'] = now` (overriding any caller-supplied value) and
applies the merge to every row whose `arxiv_id` matches — there is no
session or topic filter in the SQL. -/
def updatePaper (st : Store) (arxivId : String) (u : PaperUpdates) (now : Nat) : Store :=
  st.map fun p =>
    if p.arxiv_id = arxivId then applyUpdates p { u with updated_at := some now } else p

/-- `Database.get_paper_by_arxiv_id` (db.py lines 179-188): first matching
row, if any. -/
def getPaperByArxivId (st : Store) (arxivId : String) : Option Paper :=
  st.find? fun p => decide (p.arxiv_id = arxivId)

/-- `Database.get_papers_by_status` (db.py lines 190-218): a topic filter
takes priority (cross-session query), else a session filter, else status
alone. -/
def getPapersByStatus (st : Store) (status : String) (sessionId : Option Nat)
    (researchTopic : Option String) : Store :=
  match researchTopic with
  | some topic => st.filter fun p => decide (p.status = status ∧ p.research_topic = some topic)
  | none =>
    match sessionId with
    | some sid => st.filter fun p => decide (p.status = status ∧ p.search_session_id = some sid)
    | none => st.filter fun p => decide (p.status = status)

/-! ## Search (core/searcher.py) -/

/-- The metadata of one arXiv API result (the fields the code reads). -/
structure ArxivResult where
  entry_id : String
  title : String
  authors : String
  summary : String
  published : Option String
  pdf_url : Option String
  deriving Repr, DecidableEq

/-- `ArxivSearcher._parse_arxiv_result` (searcher.py lines 119-136): the
stored `arxiv_id` is the last URL segment with its version suffix
stripped; the row starts in status `discovered`. -/
def parseArxivResult (r : ArxivResult) (sessionId : Option Nat) : Paper :=
  { arxiv_id := stripVersion (lastSegment r.entry_id)
    title := r.title
    authors := r.authors
    abstract := r.summary
    published_date := r.published
    arxiv_url := r.entry_id
    pdf_url := r.pdf_url
    pdf_path := none
    status := "discovered"
    research_topic := none
    relevance_score := none
    relevance_reason := none
    improvement_category := none
    search_session_id := sessionId
    updated_at := 0 }

/-- The result loop of `ArxivSearcher.search_papers` (searcher.py lines
62-88): skip the first `offset` stream entries, skip results whose raw
last URL segment is already known globally, insert the rest.  A database
error (the only one the inner statements can raise is the duplicate-key
integrity error) is caught by the surrounding `try` and ends the loop,
returning the papers accumulated so far and leaving the store as it was
before the failing insert. -/
def processResults (sid : Nat) (offset : Nat) :
    List ArxivResult → Nat → Store → List Paper → Store × List Paper
  | [], _, st, acc => (st, acc)
  | r :: rs, skipped, st, acc =>
    if skipped < offset then processResults sid offset rs (skipped + 1) st acc
    else if paperExists st (lastSegment r.entry_id) none then
      processResults sid offset rs skipped st acc
    else
      let pd := parseArxivResult r (some sid)
      match addPaper st pd with
      | .ok st' => processResults sid offset rs skipped st' (acc ++ [pd])
      | .error _ => (st, acc)

/-- `ArxivSearcher.search_papers` (searcher.py lines 22-90) applied to the
result stream the arXiv client returned for this query. -/
def searchPapers (sid : Nat) (offset : Nat) (results : List ArxivResult) (st : Store) :
    Store × List Paper :=
  processResults sid offset results 0 st []

/-- The keyword-processing step of `_build_query` (searcher.py lines
109-115): quote a keyword that contains a space, unless it already starts
with a double quote. -/
def processKeyword (kw : String) : String :=
  if kw.data.contains ' ' && !(kw.data.head? == some '"') then "\"" ++ kw ++ "\"" else kw

/-- `ArxivSearcher._build_query` (searcher.py lines 92-117). -/
def buildQuery (keywords : List String) : String :=
  if keywords = [] then ""
  else if keywords.length = 1 then (keywords.head?).getD ""
  else joinSep " OR " (keywords.map processKeyword)

/-! ## Theorems for claim C9 (query construction) -/

theorem joinSep_mem_decomp (sep : String) (x : String) :
    ∀ l : List String, x ∈ l →
      ∃ pre post : List Char, (joinSep sep l).data = pre ++ x.data ++ post := by
  intro l
  induction l with
  | nil => intro h; cases h
  | cons a tl ih =>
    intro h
    cases tl with
    | nil =>
      rcases List.mem_singleton.mp h with rfl
      exact ⟨[], [], by simp [joinSep]⟩
    | cons b tl' =>
      rcases List.mem_cons.mp h with rfl | hmem
      · refine ⟨[], (sep ++ joinSep sep (b :: tl')).data, ?_⟩
        simp [joinSep, String.data_append]
      · rcases ih hmem with ⟨pre, post, hpp⟩
        refine ⟨(a ++ sep).data ++ pre, post, ?_⟩
        simp [joinSep, String.data_append, hpp]

theorem processKeyword_quotes (kw : String) (hsp : kw.data.contains ' ' = true)
    (hq : kw.data.head? ≠ some '"') :
    (processKeyword kw).data = '"' :: (kw.data ++ ['"']) := by
  have hcond : (kw.data.contains ' ' && !(kw.data.head? == some '"')) = true := by
    rw [hsp]
    simp [hq]
  unfold processKeyword
  rw [if_pos hcond]
  simp [String.data_append]

/-- C9 counterexample: the claim says every multi-word keyword appears in
the query wrapped in double quotes, but `_build_query` returns a singleton
keyword list verbatim — for `["low rank adaptation"]` the query is the
bare term and contains no quote character at all. -/
theorem buildQuery_singleton_multiword_unquoted :
    buildQuery ["low rank adaptation"] = "low rank adaptation" ∧
    ("low rank adaptation".data.contains ' ' = true) ∧
    ¬ ('"' ∈ (buildQuery ["low rank adaptation"]).data) := by
  refine ⟨by decide, by decide, by decide⟩

/-- C9 (amended): for a keyword list with at least two entries, the query
is the " OR "-join of the processed keywords, and every multi-word keyword
that does not already start with a double quote appears in the query
wrapped in double quotes.  (A single keyword is returned verbatim, without
quoting.) -/
theorem buildQuery_or_joins_and_quotes (keywords : List String)
    (h2 : 2 ≤ keywords.length) :
    buildQuery keywords = joinSep " OR " (keywords.map processKeyword) ∧
    ∀ kw ∈ keywords, kw.data.contains ' ' = true → kw.data.head? ≠ some '"' →
      ∃ pre post : List Char,
        (buildQuery keywords).data = pre ++ ('"' :: (kw.data ++ ['"'])) ++ post := by
  have hne : keywords ≠ [] := by
    intro h; rw [h] at h2; simp at h2
  have hlen : keywords.length ≠ 1 := by omega
  have hq : buildQuery keywords = joinSep " OR " (keywords.map processKeyword) := by
    unfold buildQuery
    rw [if_neg hne, if_neg hlen]
  refine ⟨hq, ?_⟩
  intro kw hmem hsp hqc
  have hmem' : processKeyword kw ∈ keywords.map processKeyword := List.mem_map_of_mem _ hmem
  rcases joinSep_mem_decomp " OR " (processKeyword kw) (keywords.map processKeyword) hmem' with
    ⟨pre, post, hpp⟩
  refine ⟨pre, post, ?_⟩
  rw [hq, hpp, processKeyword_quotes kw hsp hqc]

/-- Witness for `buildQuery_or_joins_and_quotes` at a concrete input. -/
theorem buildQuery_or_joins_and_quotes_witness :
    buildQuery ["LoRA", "low rank adaptation"] =
      joinSep " OR " (["LoRA", "low rank adaptation"].map processKeyword) ∧
    ∃ pre post : List Char,
      (buildQuery ["LoRA", "low rank adaptation"]).data =
        pre ++ ('"' :: ("low rank adaptation".data ++ ['"'])) ++ post := by
  have h := buildQuery_or_joins_and_quotes ["LoRA", "low rank adaptation"] (by decide)
  exact ⟨h.1, h.2 "low rank adaptation" (by decide) (by decide) (by decide)⟩

/-! ## Theorems for claim C10 (`update_paper` effect and frame) -/

/-- C10: `update_paper` touches exactly the rows whose `arxiv_id` matches —
in every session and under every topic, since the SQL has no session or
topic filter — overwrites exactly the supplied fields, stamps `updated_at`
with the current time (even overriding a caller-supplied value), leaves
every other field of the matching rows unchanged, and leaves rows with a
different `arxiv_id` untouched. -/
theorem updatePaper_effect_and_frame (st : Store) (arxivId : String)
    (u : PaperUpdates) (now : Nat) :
    (updatePaper st arxivId u now).length = st.length ∧
    ∀ i (h : i < st.length) (h' : i < (updatePaper st arxivId u now).length),
      ((st.get ⟨i, h⟩).arxiv_id ≠ arxivId →
        (updatePaper st arxivId u now).get ⟨i, h'⟩ = st.get ⟨i, h⟩) ∧
      ((st.get ⟨i, h⟩).arxiv_id = arxivId →
        ((updatePaper st arxivId u now).get ⟨i, h'⟩).arxiv_id = (st.get ⟨i, h⟩).arxiv_id ∧
        ((updatePaper st arxivId u now).get ⟨i, h'⟩).search_session_id
          = (st.get ⟨i, h⟩).search_session_id ∧
        ((updatePaper st arxivId u now).get ⟨i, h'⟩).title = (st.get ⟨i, h⟩).title ∧
        ((updatePaper st arxivId u now).get ⟨i, h'⟩).authors = (st.get ⟨i, h⟩).authors ∧
        ((updatePaper st arxivId u now).get ⟨i, h'⟩).abstract = (st.get ⟨i, h⟩).abstract ∧
        ((updatePaper st arxivId u now).get ⟨i, h'⟩).published_date
          = (st.get ⟨i, h⟩).published_date ∧
        ((updatePaper st arxivId u now).get ⟨i, h'⟩).arxiv_url = (st.get ⟨i, h⟩).arxiv_url ∧
        ((updatePaper st arxivId u now).get ⟨i, h'⟩).updated_at = now ∧
        (u.status = none →
          ((updatePaper st arxivId u now).get ⟨i, h'⟩).status = (st.get ⟨i, h⟩).status) ∧
        (∀ v, u.status = some v →
          ((updatePaper st arxivId u now).get ⟨i, h'⟩).status = v) ∧
        (u.research_topic = none →
          ((updatePaper st arxivId u now).get ⟨i, h'⟩).research_topic
            = (st.get ⟨i, h⟩).research_topic) ∧
        (∀ v, u.research_topic = some v →
          ((updatePaper st arxivId u now).get ⟨i, h'⟩).research_topic = some v) ∧
        (u.relevance_score = none →
          ((updatePaper st arxivId u now).get ⟨i, h'⟩).relevance_score
            = (st.get ⟨i, h⟩).relevance_score) ∧
        (∀ v, u.relevance_score = some v →
          ((updatePaper st arxivId u now).get ⟨i, h'⟩).relevance_score = some v) ∧
        (u.relevance_reason = none →
          ((updatePaper st arxivId u now).get ⟨i, h'⟩).relevance_reason
            = (st.get ⟨i, h⟩).relevance_reason) ∧
        (∀ v, u.relevance_reason = some v →
          ((updatePaper st arxivId u now).get ⟨i, h'⟩).relevance_reason = some v) ∧
        (u.pdf_path = none →
          ((updatePaper st arxivId u now).get ⟨i, h'⟩).pdf_path
            = (st.get ⟨i, h⟩).pdf_path) ∧
        (∀ v, u.pdf_path = some v →
          ((updatePaper st arxivId u now).get ⟨i, h'⟩).pdf_path = some v) ∧
        (u.improvement_category = none →
          ((updatePaper st arxivId u now).get ⟨i, h'⟩).improvement_category
            = (st.get ⟨i, h⟩).improvement_category) ∧
        (∀ v, u.improvement_category = some v →
          ((updatePaper st arxivId u now).get ⟨i, h'⟩).improvement_category = some v)) := by
  constructor
  · simp [updatePaper]
  · intro i h h'
    have hget : (updatePaper st arxivId u now).get ⟨i, h'⟩ =
        (fun p => if p.arxiv_id = arxivId then applyUpdates p { u with updated_at := some now }
          else p) (st.get ⟨i, h⟩) := by
      simp [updatePaper]
    constructor
    · intro hne
      rw [hget]
      simp only [if_neg hne]
    · intro heq
      rw [hget]
      simp only [if_pos heq]
      refine ⟨rfl, rfl, rfl, rfl, rfl, rfl, rfl, rfl, ?_, ?_, ?_, ?_, ?_, ?_, ?_, ?_, ?_,
        ?_, ?_, ?_⟩ <;>
        first
          | (intro hu; simp [applyUpdates, mergeField, hu])
          | (intro v hu; simp [applyUpdates, mergeField, hu])

/-- Witness for `updatePaper_effect_and_frame`: a two-row store holding the
same paper id in two different sessions under two different topics, plus an
unrelated row; the update rewrites both matching rows and leaves the other
row alone. -/
def paperW1 : Paper :=
  { arxiv_id := "2101.00001", title := "t1", authors := "a", abstract := "s",
    published_date := none, arxiv_url := "u1", pdf_url := none, pdf_path := none,
    status := "relevant", research_topic := some "T1", relevance_score := some 80,
    relevance_reason := some "r1", improvement_category := none,
    search_session_id := some 1, updated_at := 0 }

def paperW2 : Paper :=
  { arxiv_id := "2101.00001", title := "t1", authors := "a", abstract := "s",
    published_date := none, arxiv_url := "u1", pdf_url := none, pdf_path := none,
    status := "discovered", research_topic := some "T2", relevance_score := none,
    relevance_reason := none, improvement_category := none,
    search_session_id := some 2, updated_at := 0 }

def paperW3 : Paper :=
  { arxiv_id := "2101.00002", title := "t3", authors := "b", abstract := "s3",
    published_date := none, arxiv_url := "u3", pdf_url := none, pdf_path := none,
    status := "discovered", research_topic := none, relevance_score := none,
    relevance_reason := none, improvement_category := none,
    search_session_id := some 1, updated_at := 0 }

theorem updatePaper_effect_and_frame_witness :
    ((updatePaper [paperW1, paperW2, paperW3] "2101.00001"
        { status := some "irrelevant" } 5).get ⟨1, by decide⟩).status = "irrelevant" ∧
    ((updatePaper [paperW1, paperW2, paperW3] "2101.00001"
        { status := some "irrelevant" } 5).get ⟨1, by decide⟩).research_topic = some "T2" ∧
    ((updatePaper [paperW1, paperW2, paperW3] "2101.00001"
        { status := some "irrelevant" } 5).get ⟨1, by decide⟩).updated_at = 5 ∧
    (updatePaper [paperW1, paperW2, paperW3] "2101.00001"
        { status := some "irrelevant" } 5).get ⟨2, by decide⟩ = paperW3 := by
  have h := updatePaper_effect_and_frame [paperW1, paperW2, paperW3] "2101.00001"
    { status := some "irrelevant" } 5
  have h1 := (h.2 1 (by decide) (by decide)).2 (by decide)
  refine ⟨h1.2.2.2.2.2.2.2.2.2.1 "irrelevant" rfl, ?_, h1.2.2.2.2.2.2.2.1, ?_⟩
  · decide
  · decide

/-! ## Theorems for claim C4 (discovery/insert idempotence) -/

/-- A concrete arXiv result whose `entry_id` carries the usual version
suffix, as the arXiv API returns it. -/
def resultV1 : ArxivResult :=
  { entry_id := "http://arxiv.org/abs/2101.00001v1", title := "paper one",
    authors := "x", summary := "s1", published := none,
    pdf_url := some "http://arxiv.org/pdf/2101.00001v1" }

/-- A second, fresh result presented in the same batch as `resultV1`. -/
def resultV2 : ArxivResult :=
  { entry_id := "http://arxiv.org/abs/2102.99999v1", title := "paper two",
    authors := "y", summary := "s2", published := none,
    pdf_url := some "http://arxiv.org/pdf/2102.99999v1" }

/-- A result whose `entry_id` has no version suffix. -/
def resultNoV : ArxivResult :=
  { entry_id := "http://arxiv.org/abs/2103.12345", title := "paper three",
    authors := "z", summary := "s3", published := none,
    pdf_url := some "http://arxiv.org/pdf/2103.12345" }

/-- C4 (code bug, evaluated): the duplicate pre-check
`db.paper_exists(result.entry_id.split('/')[-1])` uses the version-suffixed
id while `_parse_arxiv_result` stores the version-stripped id, so for a
version-suffixed `entry_id` the second run does NOT detect the id as
already known.  The `UNIQUE(arxiv_id, search_session_id)` constraint still
prevents a duplicate row, but the raised integrity error aborts the whole
batch instead of being a no-op skip: the fresh sibling `resultV2` in the
second run is never inserted.  For an `entry_id` without a version suffix
the pre-check matches and the second run is the claimed no-op skip. -/
theorem searchPapers_versioned_dedup_bug :
    -- first run discovers the paper, storing the stripped id
    ((searchPapers 1 0 [resultV1] []).1.map Paper.arxiv_id) = ["2101.00001"] ∧
    -- the pre-check with the versioned id misses the stored row
    paperExists (searchPapers 1 0 [resultV1] []).1 (lastSegment resultV1.entry_id) none
      = false ∧
    -- the second run aborts on the duplicate-key error: the store is left
    -- with exactly one row for the id, but the batch returns no papers and
    -- the fresh resultV2 was never inserted
    (searchPapers 1 0 [resultV1, resultV2] (searchPapers 1 0 [resultV1] []).1).1
      = (searchPapers 1 0 [resultV1] []).1 ∧
    (searchPapers 1 0 [resultV1, resultV2] (searchPapers 1 0 [resultV1] []).1).2 = [] ∧
    -- contrast: with no version suffix the second run is a no-op skip and
    -- the sibling resultV2 is still processed
    paperExists (searchPapers 1 0 [resultNoV] []).1 (lastSegment resultNoV.entry_id) none
      = true ∧
    ((searchPapers 1 0 [resultNoV, resultV2] (searchPapers 1 0 [resultNoV] []).1).1.map
        Paper.arxiv_id) = ["2103.12345", "2102.99999"] ∧
    ((searchPapers 1 0 [resultNoV, resultV2]
        (searchPapers 1 0 [resultNoV] []).1).2.map Paper.arxiv_id) = ["2102.99999"] := by
  decide

/-! ## Abstract screening (core/analyzer.py, `screen_abstract` and
`process_abstract_screening`) -/

/-- Outcome of one screening call against the LLM, after JSON parsing:
either the parsed `(relevance_score, is_relevant, reason)` triple (with the
dict-lookup defaults already applied) or an API/parse error. -/
inductive ScreenOutcome where
  | ok (relevance_score : ℚ) (is_relevant : Bool) (reason : String)
  | err (msg : String)
  deriving Repr, DecidableEq

/-- The dictionary `screen_abstract` returns. -/
structure ScreenResult where
  relevance_score : ℚ
  is_relevant : Bool
  relevance_reason : String
  deriving Repr, DecidableEq

/-- `PaperAnalyzer.screen_abstract` (analyzer.py lines 119-167): a
successful call returns the parsed triple; any exception (API failure after
retries, or JSON parse failure) is caught and degraded to score 0 /
not-relevant with an explanatory reason. -/
def screenAbstract (outcome : ScreenOutcome) : ScreenResult :=
  match outcome with
  | .ok score isRel reason => ⟨score, isRel, reason⟩
  | .err msg => ⟨0, false, "解析失败: " ++ msg⟩

/-- The per-paper task of `process_abstract_screening` (analyzer.py lines
277-304): mark the row `abstract_screening`, screen, then write score,
reason, topic and the final `relevant`/`irrelevant` status.  `oracle`
yields the outcome of this paper's screening call. -/
def processOneScreening (oracle : Paper → ScreenOutcome) (topic : String)
    (st : Store) (p : Paper) (now : Nat) : Store :=
  let st1 := updatePaper st p.arxiv_id { status := some "abstract_screening" } now
  let result := screenAbstract (oracle p)
  updatePaper st1 p.arxiv_id
    { relevance_score := some result.relevance_score
      relevance_reason := some result.relevance_reason
      research_topic := some topic
      status := some (if result.is_relevant then "relevant" else "irrelevant") } now

/-- `PaperAnalyzer.process_abstract_screening` (analyzer.py lines 267-308):
every paper of the batch is processed; each task only ever touches its own
row, so the concurrent gather is modelled as processing the batch in
order. -/
def processAbstractScreening (oracle : Paper → ScreenOutcome) (st : Store)
    (papers : List Paper) (topic : String) (now : Nat) : Store :=
  match papers with
  | [] => st
  | p :: rest =>
    processAbstractScreening oracle (processOneScreening oracle topic st p now) rest topic now

theorem applyUpdates_arxiv_id (p : Paper) (u : PaperUpdates) :
    (applyUpdates p u).arxiv_id = p.arxiv_id := rfl

theorem getPaperByArxivId_updatePaper_self (st : Store) (arxivId : String)
    (u : PaperUpdates) (now : Nat) :
    getPaperByArxivId (updatePaper st arxivId u now) arxivId
      = (getPaperByArxivId st arxivId).map
          (fun p => applyUpdates p { u with updated_at := some now }) := by
  induction st with
  | nil => rfl
  | cons p tl ih =>
    by_cases hp : p.arxiv_id = arxivId
    · simp [updatePaper, getPaperByArxivId, List.find?, hp, applyUpdates_arxiv_id]
    · simp only [updatePaper, List.map, if_neg hp, getPaperByArxivId, List.find?]
      rw [decide_eq_false hp]
      simpa [updatePaper, getPaperByArxivId] using ih

theorem getPaperByArxivId_updatePaper_other (st : Store) (arxivId other : String)
    (u : PaperUpdates) (now : Nat) (hne : other ≠ arxivId) :
    getPaperByArxivId (updatePaper st arxivId u now) other
      = getPaperByArxivId st other := by
  induction st with
  | nil => rfl
  | cons p tl ih =>
    by_cases hp : p.arxiv_id = arxivId
    · have hpo : p.arxiv_id ≠ other := by rw [hp]; exact fun h => hne h.symm
      simp only [updatePaper, List.map, if_pos hp, getPaperByArxivId, List.find?]
      rw [decide_eq_false
        (show (applyUpdates p { u with updated_at := some now }).arxiv_id ≠ other from hpo),
        decide_eq_false hpo]
      simpa [updatePaper, getPaperByArxivId] using ih
    · simp only [updatePaper, List.map, if_neg hp, getPaperByArxivId, List.find?]
      cases hdec : decide (p.arxiv_id = other) with
      | true => rfl
      | false => simpa [updatePaper, getPaperByArxivId] using ih

theorem getPaperByArxivId_processOneScreening_other (oracle : Paper → ScreenOutcome)
    (topic : String) (st : Store) (p : Paper) (now : Nat) (other : String)
    (hne : other ≠ p.arxiv_id) :
    getPaperByArxivId (processOneScreening oracle topic st p now) other
      = getPaperByArxivId st other := by
  unfold processOneScreening
  rw [getPaperByArxivId_updatePaper_other _ _ _ _ _ hne,
    getPaperByArxivId_updatePaper_other _ _ _ _ _ hne]

theorem getPaperByArxivId_processAbstractScreening_other
    (oracle : Paper → ScreenOutcome) (topic : String) (now : Nat) :
    ∀ (papers : List Paper) (st : Store) (other : String),
      other ∉ papers.map Paper.arxiv_id →
      getPaperByArxivId (processAbstractScreening oracle st papers topic now) other
        = getPaperByArxivId st other := by
  intro papers
  induction papers with
  | nil => intro st other _; rfl
  | cons p rest ih =>
    intro st other hother
    simp only [List.map, List.mem_cons, not_or] at hother
    show getPaperByArxivId
      (processAbstractScreening oracle (processOneScreening oracle topic st p now) rest topic now)
        other = _
    rw [ih _ _ hother.2, getPaperByArxivId_processOneScreening_other _ _ _ _ _ _ hother.1]

theorem getPaperByArxivId_processOneScreening_self (oracle : Paper → ScreenOutcome)
    (topic : String) (st : Store) (p : Paper) (now : Nat) (p₀ : Paper)
    (hsome : getPaperByArxivId st p.arxiv_id = some p₀) :
    getPaperByArxivId (processOneScreening oracle topic st p now) p.arxiv_id
      = some (applyUpdates
          (applyUpdates p₀ { status := some "abstract_screening", updated_at := some now })
          { relevance_score := some (screenAbstract (oracle p)).relevance_score
            relevance_reason := some (screenAbstract (oracle p)).relevance_reason
            research_topic := some topic
            status := some (if (screenAbstract (oracle p)).is_relevant
              then "relevant" else "irrelevant")
            updated_at := some now }) := by
  unfold processOneScreening
  rw [getPaperByArxivId_updatePaper_self, getPaperByArxivId_updatePaper_self, hsome]
  rfl

/-- C6: during batch screening, an individual screening failure (API error
or unparseable response) degrades that item to relevance score 0 and the
`irrelevant` status, and it does not abort the batch: every item of the
batch still ends in a screening outcome (`relevant` or `irrelevant`, with
its own score, reason and topic written), each determined solely by the
outcome of that item's own screening call. -/
theorem processAbstractScreening_isolates_failures (oracle : Paper → ScreenOutcome)
    (topic : String) (now : Nat) :
    ∀ (papers : List Paper) (st : Store),
      (papers.map Paper.arxiv_id).Nodup →
      (∀ p ∈ papers, (getPaperByArxivId st p.arxiv_id).isSome) →
      ∀ p ∈ papers, ∃ q,
        getPaperByArxivId (processAbstractScreening oracle st papers topic now) p.arxiv_id
          = some q ∧
        q.status = (if (screenAbstract (oracle p)).is_relevant
          then "relevant" else "irrelevant") ∧
        q.relevance_score = some (screenAbstract (oracle p)).relevance_score ∧
        q.relevance_reason = some (screenAbstract (oracle p)).relevance_reason ∧
        q.research_topic = some topic ∧
        (∀ msg, oracle p = .err msg → q.relevance_score = some 0 ∧ q.status = "irrelevant") := by
  intro papers
  induction papers with
  | nil => intro st _ _ p hp; cases hp
  | cons phead rest ih =>
    intro st hnodup hsome p hp
    have hnodup0 : phead.arxiv_id ∉ rest.map Paper.arxiv_id ∧
        (rest.map Paper.arxiv_id).Nodup := by
      rw [List.map_cons, List.nodup_cons] at hnodup
      exact hnodup
    rcases List.mem_cons.mp hp with rfl | hmem
    · obtain ⟨p₀, hp₀⟩ := Option.isSome_iff_exists.mp (hsome p (List.mem_cons_self _ _))
      show ∃ q, getPaperByArxivId (processAbstractScreening oracle
        (processOneScreening oracle topic st p now) rest topic now) p.arxiv_id = some q ∧ _
      rw [getPaperByArxivId_processAbstractScreening_other _ _ _ _ _ _ hnodup0.1,
        getPaperByArxivId_processOneScreening_self _ _ _ _ _ _ hp₀]
      refine ⟨_, rfl, rfl, rfl, rfl, rfl, ?_⟩
      intro msg hmsg
      exact ⟨by rw [hmsg]; rfl, by rw [hmsg]; rfl⟩
    · have hpne : p.arxiv_id ≠ phead.arxiv_id := by
        intro h
        exact hnodup0.1 (h ▸ List.mem_map_of_mem Paper.arxiv_id hmem)
      show ∃ q, getPaperByArxivId (processAbstractScreening oracle
        (processOneScreening oracle topic st phead now) rest topic now) p.arxiv_id = some q ∧ _
      apply ih (processOneScreening oracle topic st phead now) hnodup0.2 ?_ p hmem
      intro r hr
      by_cases hre : r.arxiv_id = phead.arxiv_id
      · rw [processOneScreening, hre, getPaperByArxivId_updatePaper_self,
          getPaperByArxivId_updatePaper_self]
        have := hsome r (List.mem_cons_of_mem _ hr)
        rw [← hre]
        simpa using this
      · rw [getPaperByArxivId_processOneScreening_other _ _ _ _ _ _ hre]
        exact hsome r (List.mem_cons_of_mem _ hr)

/-- The store and oracle for the C6 witness: two papers, the first one's
screening call fails, the second one's succeeds. -/
def paperW4 : Paper :=
  { arxiv_id := "2104.00001", title := "t4", authors := "a", abstract := "s4",
    published_date := none, arxiv_url := "u4", pdf_url := none, pdf_path := none,
    status := "discovered", research_topic := none, relevance_score := none,
    relevance_reason := none, improvement_category := none,
    search_session_id := some 1, updated_at := 0 }

def paperW5 : Paper :=
  { arxiv_id := "2104.00002", title := "t5", authors := "b", abstract := "s5",
    published_date := none, arxiv_url := "u5", pdf_url := none, pdf_path := none,
    status := "discovered", research_topic := none, relevance_score := none,
    relevance_reason := none, improvement_category := none,
    search_session_id := some 1, updated_at := 0 }

def oracleW : Paper → ScreenOutcome := fun p =>
  if p.arxiv_id = "2104.00001" then .err "boom" else .ok 85 true "close match"

/-- Witness for `processAbstractScreening_isolates_failures`: in a batch
where the first item's call errors and the second succeeds, the first ends
`irrelevant` with score 0 and the second still ends `relevant`. -/
theorem processAbstractScreening_isolates_failures_witness :
    (∃ q, getPaperByArxivId
        (processAbstractScreening oracleW [paperW4, paperW5] [paperW4, paperW5] "T" 3)
        "2104.00001" = some q ∧ q.status = "irrelevant" ∧ q.relevance_score = some 0) ∧
    (∃ q, getPaperByArxivId
        (processAbstractScreening oracleW [paperW4, paperW5] [paperW4, paperW5] "T" 3)
        "2104.00002" = some q ∧ q.status = "relevant" ∧ q.relevance_score = some 85) := by
  have h := processAbstractScreening_isolates_failures oracleW "T" 3 [paperW4, paperW5]
    [paperW4, paperW5] (by decide) (by decide)
  constructor
  · obtain ⟨q, hq, hstat, hscore, -, -, herr⟩ := h paperW4 (by decide)
    obtain ⟨hs0, hirr⟩ := herr "boom" (by decide)
    exact ⟨q, hq, hirr, hs0⟩
  · obtain ⟨q, hq, hstat, hscore, -, -, -⟩ := h paperW5 (by decide)
    refine ⟨q, hq, ?_, ?_⟩
    · rw [hstat]; decide
    · rw [hscore]; decide

/-! ## Deep analysis: category coercion (core/analyzer.py,
`analyze_full_paper`; core/config.py, `IMPROVEMENT_CATEGORIES`) -/

/-- The fixed closed category set (config.py lines 55-63). -/
def IMPROVEMENT_CATEGORIES : List String :=
  ["数学改进", "结构改进", "自适应方法", "理论分析", "应用扩展", "效率优化", "其他"]

/-- The parsed JSON object returned by a successful extraction call; `none`
models a key missing from the dict. -/
structure ExtractionJson where
  problem_definition : Option String := none
  mathematical_modeling : Option String := none
  core_innovation : Option String := none
  theoretical_guarantee : Option String := none
  experimental_design : Option String := none
  quantitative_results : Option String := none
  limitations : Option String := none
  innovation_ideas : Option String := none
  improvement_category : Option String := none
  deriving Repr, DecidableEq

/-- Outcome of one extraction call: the parsed JSON, or an API/parse
error. -/
inductive ExtractOutcome where
  | ok (json : ExtractionJson)
  | err (msg : String)
  deriving Repr, DecidableEq

/-- The `PaperAnalysis` dataclass (analyzer.py lines 26-39). -/
structure PaperAnalysis where
  problem_definition : String
  mathematical_modeling : String
  core_innovation : String
  theoretical_guarantee : String
  experimental_design : String
  quantitative_results : String
  limitations : String
  innovation_ideas : String
  improvement_category : String
  relevance_score : ℚ
  relevance_reason : String
  deriving Repr, DecidableEq

/-- `PaperAnalyzer.analyze_full_paper` (analyzer.py lines 169-265), from
the outcome of the extraction call: on success every missing field defaults
to "未明确提及" and the category is validated against the closed set, any
other value (including a missing one) being coerced to "其他"; on failure a
degraded all-"分析失败" record with category "其他" is returned. -/
def analyzeFullPaper (outcome : ExtractOutcome) : PaperAnalysis :=
  match outcome with
  | .ok j =>
    let category0 := j.improvement_category.getD "其他"
    let category := if category0 ∈ IMPROVEMENT_CATEGORIES then category0 else "其他"
    { problem_definition := j.problem_definition.getD "未明确提及"
      mathematical_modeling := j.mathematical_modeling.getD "未明确提及"
      core_innovation := j.core_innovation.getD "未明确提及"
      theoretical_guarantee := j.theoretical_guarantee.getD "未明确提及"
      experimental_design := j.experimental_design.getD "未明确提及"
      quantitative_results := j.quantitative_results.getD "未明确提及"
      limitations := j.limitations.getD "未明确提及"
      innovation_ideas := j.innovation_ideas.getD "未明确提及"
      improvement_category := category
      relevance_score := 0
      relevance_reason := "" }
  | .err msg =>
    { problem_definition := "分析失败: " ++ msg
      mathematical_modeling := "分析失败"
      core_innovation := "分析失败"
      theoretical_guarantee := "分析失败"
      experimental_design := "分析失败"
      quantitative_results := "分析失败"
      limitations := "分析失败"
      innovation_ideas := "分析失败"
      improvement_category := "其他"
      relevance_score := 0
      relevance_reason := "" }

/-- C7: for every extraction outcome the stored improvement category is a
member of the fixed closed set, and whenever the raw returned value lies
outside the set the stored category is the catch-all "其他", never the
invalid raw value. -/
theorem analyzeFullPaper_category_closed (outcome : ExtractOutcome) :
    (analyzeFullPaper outcome).improvement_category ∈ IMPROVEMENT_CATEGORIES ∧
    (∀ j raw, outcome = .ok j → j.improvement_category = some raw →
      raw ∉ IMPROVEMENT_CATEGORIES →
      (analyzeFullPaper outcome).improvement_category = "其他") := by
  constructor
  · cases outcome with
    | ok j =>
      show (if j.improvement_category.getD "其他" ∈ IMPROVEMENT_CATEGORIES
        then j.improvement_category.getD "其他" else "其他") ∈ IMPROVEMENT_CATEGORIES
      split
      · assumption
      · decide
    | err msg =>
      show "其他" ∈ IMPROVEMENT_CATEGORIES
      decide
  · intro j raw hok hraw hout
    subst hok
    show (if j.improvement_category.getD "其他" ∈ IMPROVEMENT_CATEGORIES
      then j.improvement_category.getD "其他" else "其他") = "其他"
    rw [hraw]
    exact if_neg hout

/-- Witness for `analyzeFullPaper_category_closed`: an extraction result
carrying the invalid category "发明创新" is stored as "其他". -/
theorem analyzeFullPaper_category_closed_witness :
    (analyzeFullPaper (.ok { improvement_category := some "发明创新" })).improvement_category
      = "其他" ∧
    (analyzeFullPaper (.ok { improvement_category := some "发明创新" })).improvement_category
      ∈ IMPROVEMENT_CATEGORIES := by
  have h := analyzeFullPaper_category_closed (.ok { improvement_category := some "发明创新" })
  exact ⟨h.2 _ "发明创新" rfl rfl (by decide), h.1⟩

/-! ## Keyword resolution (core/analyzer.py, `generate_search_keywords`;
paper_researcher/main.py lines 144-163) -/

/-- Outcome of the keyword-suggestion call: the parsed `keywords` list, or
an API/parse error. -/
inductive KeywordOutcome where
  | ok (keywords : List String)
  | err (msg : String)
  deriving Repr, DecidableEq

/-- `PaperAnalyzer.generate_search_keywords` (analyzer.py lines 385-456):
on success the returned list is cleaned (`[k.strip() for k in keywords if k
and k.strip()]`); on any error the raw topic string is returned as the sole
keyword. -/
def generateSearchKeywords (topic : String) (oracle : KeywordOutcome) : List String :=
  match oracle with
  | .ok ks => (ks.filter fun k => !(k == "") && !(pyStrip k == "")).map pyStrip
  | .err _ => [topic]

/-- The keyword-resolution branch of `main` (main.py lines 144-163) with
the `--auto-keywords` flag as an argument (its `click` default is `true`):
explicit keywords are used verbatim; otherwise, with auto-keywords on, the
oracle is invoked once and an empty generated list falls back to the raw
topic; with auto-keywords off no keyword list is resolved and the run
aborts (`none`). -/
def resolveKeywords (explicitKeywords : List String) (autoKeywords : Bool)
    (topic : String) (oracle : KeywordOutcome) : Option (List String) :=
  if explicitKeywords ≠ [] then some explicitKeywords
  else if autoKeywords then
    some (if generateSearchKeywords topic oracle = []
      then [topic] else generateSearchKeywords topic oracle)
  else none

/-- C8: explicitly supplied keywords are used verbatim (for any state of
the auto-keyword flag); otherwise, under the default auto-keyword flag, the
single oracle invocation determines the result — on oracle failure, or when
the cleaned oracle result is empty, the resolved list is exactly the
singleton `[topic]`, and a non-empty oracle result is used as generated. -/
theorem resolveKeywords_spec (explicitKeywords : List String) (topic : String)
    (oracle : KeywordOutcome) :
    (explicitKeywords ≠ [] → ∀ auto,
      resolveKeywords explicitKeywords auto topic oracle = some explicitKeywords) ∧
    (explicitKeywords = [] →
      (∀ msg, oracle = .err msg →
        resolveKeywords explicitKeywords true topic oracle = some [topic]) ∧
      (generateSearchKeywords topic oracle = [] →
        resolveKeywords explicitKeywords true topic oracle = some [topic]) ∧
      (generateSearchKeywords topic oracle ≠ [] →
        resolveKeywords explicitKeywords true topic oracle
          = some (generateSearchKeywords topic oracle))) := by
  constructor
  · intro hne auto
    unfold resolveKeywords
    rw [if_pos hne]
  · intro hnil
    subst hnil
    refine ⟨?_, ?_, ?_⟩
    · intro msg herr
      subst herr
      show some (if generateSearchKeywords topic (.err msg) = []
        then [topic] else generateSearchKeywords topic (.err msg)) = some [topic]
      show some (if [topic] = [] then [topic] else [topic]) = some [topic]
      rw [if_neg (by simp)]
    · intro hempty
      show some (if generateSearchKeywords topic oracle = []
        then [topic] else generateSearchKeywords topic oracle) = some [topic]
      rw [if_pos hempty]
    · intro hne
      show some (if generateSearchKeywords topic oracle = []
        then [topic] else generateSearchKeywords topic oracle)
        = some (generateSearchKeywords topic oracle)
      rw [if_neg hne]

/-- Witness for `resolveKeywords_spec`: explicit keywords pass through
verbatim; with no explicit keywords an oracle error resolves to the raw
topic, an oracle result of only-blank strings resolves to the raw topic,
and a useful oracle result is used cleaned. -/
theorem resolveKeywords_spec_witness :
    resolveKeywords ["LoRA"] true "LoRA改进方法" (.err "down") = some ["LoRA"] ∧
    resolveKeywords [] true "LoRA改进方法" (.err "down") = some ["LoRA改进方法"] ∧
    resolveKeywords [] true "LoRA改进方法" (.ok ["", "  "]) = some ["LoRA改进方法"] ∧
    resolveKeywords [] true "LoRA改进方法" (.ok [" LoRA ", ""]) = some ["LoRA"] := by
  refine ⟨?_, ?_, ?_, ?_⟩
  · exact (resolveKeywords_spec ["LoRA"] "LoRA改进方法" (.err "down")).1 (by decide) true
  · exact ((resolveKeywords_spec [] "LoRA改进方法" (.err "down")).2 rfl).1 "down" rfl
  · exact ((resolveKeywords_spec [] "LoRA改进方法" (.ok ["", "  "])).2 rfl).2.1 (by decide)
  · rw [((resolveKeywords_spec [] "LoRA改进方法" (.ok [" LoRA ", ""])).2 rfl).2.2 (by decide)]
    decide

/-! ## PDF download (utils/pdf_handler.py and main.py,
`download_pdfs_for_papers`) -/

/-- The download directory, as a map from file name to file size in bytes:
an association list over the paths that exist. -/
abbrev FS := List (String × Nat)

def fsLookup (fs : FS) (path : String) : Option Nat :=
  (fs.find? fun e => decide (e.1 = path)).map Prod.snd

def fsWrite (fs : FS) (path : String) (size : Nat) : FS :=
  (fs.filter fun e => !decide (e.1 = path)) ++ [(path, size)]

def fsRemove (fs : FS) (path : String) : FS :=
  fs.filter fun e => !decide (e.1 = path)

/-- `f"{arxiv_id}.pdf"` (pdf_handler.py line 44): the deterministic
artifact path derived from the external id. -/
def pdfPathOf (arxivId : String) : String := arxivId ++ ".pdf"

/-- The observable outcome of the single HTTP fetch inside one
`download_pdf` call. -/
inductive FetchOutcome where
  /-- HTTP 200 and the body streamed to the file completely; `bytes` is the
  final file size (0 models an empty body). -/
  | success (bytes : Nat)
  /-- a non-200 response: the exception is raised before anything is
  written. -/
  | httpError (code : Nat)
  /-- a timeout or connection error while streaming; a partial file of
  `b` bytes is on disk when `partialBytes = some b`. -/
  | netError (partialBytes : Option Nat)
  deriving Repr, DecidableEq

/-- `PDFHandler.download_pdf` (pdf_handler.py lines 30-84): set the row to
`pdf_downloading`; if the artifact already exists, mark `pdf_downloaded`
without fetching; otherwise fetch, and on HTTP 200 with a non-empty body
mark `pdf_downloaded` with the artifact path, while every error (non-200,
empty file, network error) is caught, marks `pdf_failed`, and unlinks any
partial artifact, returning `none` instead of raising.  (The `@retry`
decorator never fires: the body catches all its own exceptions.) -/
def downloadPdf (st : Store) (fs : FS) (arxivId : String) (fetch : FetchOutcome)
    (now : Nat) : Store × FS × Option String :=
  let st1 := updatePaper st arxivId { status := some "pdf_downloading" } now
  let path := pdfPathOf arxivId
  if (fsLookup fs path).isSome then
    (updatePaper st1 arxivId { status := some "pdf_downloaded", pdf_path := some path } now,
      fs, some path)
  else
    match fetch with
    | .success bytes =>
      let fs1 := fsWrite fs path bytes
      if bytes > 0 then
        (updatePaper st1 arxivId
          { status := some "pdf_downloaded", pdf_path := some path } now, fs1, some path)
      else
        (updatePaper st1 arxivId { status := some "pdf_failed" } now, fsRemove fs1 path, none)
    | .httpError _ =>
      (updatePaper st1 arxivId { status := some "pdf_failed" } now, fsRemove fs path, none)
    | .netError partialBytes =>
      let fs1 := match partialBytes with
        | some b => fsWrite fs path b
        | none => fs
      (updatePaper st1 arxivId { status := some "pdf_failed" } now, fsRemove fs1 path, none)

/-- The `asyncio.gather(..., return_exceptions=True)` over the download
tasks (main.py line 82): each task yields its own result; a task's failure
is its own `none` result and cannot abort its siblings. -/
def runDownloadTasks (fetch : String → FetchOutcome) (now : Nat) :
    List Paper → Store → FS → Store × FS × List (Option String)
  | [], st, fs => (st, fs, [])
  | p :: rest, st, fs =>
    let r := downloadPdf st fs p.arxiv_id (fetch p.arxiv_id) now
    let rr := runDownloadTasks fetch now rest r.1 r.2.1
    (rr.1, rr.2.1, r.2.2 :: rr.2.2)

/-- `download_pdfs_for_papers` (main.py lines 69-85): one task per paper
that has a `pdf_url`. -/
def downloadPdfsForPapers (st : Store) (fs : FS) (papers : List Paper)
    (fetch : String → FetchOutcome) (now : Nat) : Store × FS × List (Option String) :=
  runDownloadTasks fetch now (papers.filter fun p => p.pdf_url.isSome) st fs

/-- A fetch outcome the download code treats as a failure: non-200
response, empty body, or network/timeout error. -/
def fetchFails : FetchOutcome → Bool
  | .success bytes => bytes = 0
  | .httpError _ => true
  | .netError _ => true

theorem string_data_inj {a b : String} (h : a.data = b.data) : a = b := by
  cases a
  cases b
  exact congrArg String.mk h

theorem pdfPathOf_inj {a b : String} (h : pdfPathOf a = pdfPathOf b) : a = b := by
  have h2 := congrArg String.data h
  rw [pdfPathOf, pdfPathOf, String.data_append, String.data_append] at h2
  exact string_data_inj (List.append_cancel_right h2)

theorem fsLookup_fsWrite_self (fs : FS) (path : String) (size : Nat) :
    fsLookup (fsWrite fs path size) path = some size := by
  induction fs with
  | nil => simp [fsLookup, fsWrite, List.find?]
  | cons e tl ih =>
    by_cases he : e.1 = path
    · simpa [fsWrite, he] using ih
    · simp only [fsWrite, List.filter]
      rw [show (!decide (e.1 = path)) = true by simp [he]]
      simp only [List.cons_append, fsLookup, List.find?]
      rw [decide_eq_false he]
      exact ih

theorem fsLookup_fsWrite_other (fs : FS) (path other : String) (size : Nat)
    (hne : other ≠ path) :
    fsLookup (fsWrite fs path size) other = fsLookup fs other := by
  induction fs with
  | nil =>
    simp only [fsWrite, fsLookup, List.filter, List.nil_append, List.find?]
    rw [decide_eq_false (fun h => hne h.symm)]
  | cons e tl ih =>
    by_cases he : e.1 = path
    · rw [show fsWrite (e :: tl) path size = fsWrite tl path size by
        simp [fsWrite, List.filter, he]]
      rw [ih]
      have : e.1 ≠ other := by rw [he]; exact fun h => hne h.symm
      simp only [fsLookup, List.find?]
      rw [decide_eq_false this]
    · rw [show fsWrite (e :: tl) path size = e :: fsWrite tl path size by
        simp [fsWrite, List.filter, he]]
      simp only [fsLookup, List.find?]
      cases hd : decide (e.1 = other) with
      | true => rfl
      | false => exact ih

theorem fsLookup_fsRemove_self (fs : FS) (path : String) :
    fsLookup (fsRemove fs path) path = none := by
  induction fs with
  | nil => rfl
  | cons e tl ih =>
    by_cases he : e.1 = path
    · simpa [fsRemove, List.filter, he] using ih
    · rw [show fsRemove (e :: tl) path = e :: fsRemove tl path by
        simp [fsRemove, List.filter, he]]
      simp only [fsLookup, List.find?]
      rw [decide_eq_false he]
      exact ih

theorem fsLookup_fsRemove_other (fs : FS) (path other : String) (hne : other ≠ path) :
    fsLookup (fsRemove fs path) other = fsLookup fs other := by
  induction fs with
  | nil => rfl
  | cons e tl ih =>
    by_cases he : e.1 = path
    · rw [show fsRemove (e :: tl) path = fsRemove tl path by
        simp [fsRemove, List.filter, he]]
      rw [ih]
      have : e.1 ≠ other := by rw [he]; exact fun h => hne h.symm
      simp only [fsLookup, List.find?]
      rw [decide_eq_false this]
    · rw [show fsRemove (e :: tl) path = e :: fsRemove tl path by
        simp [fsRemove, List.filter, he]]
      simp only [fsLookup, List.find?]
      cases hd : decide (e.1 = other) with
      | true => rfl
      | false => exact ih


theorem getPaper_upd_upd_self (st : Store) (arxivId : String) (u1 u2 : PaperUpdates)
    (now : Nat) (p₀ : Paper) (hp₀ : getPaperByArxivId st arxivId = some p₀) :
    getPaperByArxivId (updatePaper (updatePaper st arxivId u1 now) arxivId u2 now) arxivId
      = some (applyUpdates (applyUpdates p₀ { u1 with updated_at := some now })
          { u2 with updated_at := some now }) := by
  rw [getPaperByArxivId_updatePaper_self, getPaperByArxivId_updatePaper_self, hp₀]
  rfl

theorem getPaperByArxivId_downloadPdf_other (st : Store) (fs : FS) (arxivId : String)
    (fetch : FetchOutcome) (now : Nat) (other : String) (hne : other ≠ arxivId) :
    getPaperByArxivId (downloadPdf st fs arxivId fetch now).1 other
      = getPaperByArxivId st other := by
  cases fetch with
  | success b =>
    simp only [downloadPdf]
    split
    · rw [getPaperByArxivId_updatePaper_other _ _ _ _ _ hne,
        getPaperByArxivId_updatePaper_other _ _ _ _ _ hne]
    · split <;>
        rw [getPaperByArxivId_updatePaper_other _ _ _ _ _ hne,
          getPaperByArxivId_updatePaper_other _ _ _ _ _ hne]
  | httpError c =>
    simp only [downloadPdf]
    split <;>
      rw [getPaperByArxivId_updatePaper_other _ _ _ _ _ hne,
        getPaperByArxivId_updatePaper_other _ _ _ _ _ hne]
  | netError pb =>
    simp only [downloadPdf]
    split <;>
      rw [getPaperByArxivId_updatePaper_other _ _ _ _ _ hne,
        getPaperByArxivId_updatePaper_other _ _ _ _ _ hne]

theorem fsLookup_downloadPdf_other (st : Store) (fs : FS) (arxivId : String)
    (fetch : FetchOutcome) (now : Nat) (other : String)
    (hne : other ≠ pdfPathOf arxivId) :
    fsLookup (downloadPdf st fs arxivId fetch now).2.1 other = fsLookup fs other := by
  cases fetch with
  | success b =>
    simp only [downloadPdf]
    split
    · rfl
    · split
      · rw [fsLookup_fsWrite_other _ _ _ _ hne]
      · rw [fsLookup_fsRemove_other _ _ _ hne, fsLookup_fsWrite_other _ _ _ _ hne]
  | httpError c =>
    simp only [downloadPdf]
    split
    · rfl
    · rw [fsLookup_fsRemove_other _ _ _ hne]
  | netError pb =>
    cases pb with
    | none =>
      simp only [downloadPdf]
      split
      · rfl
      · rw [fsLookup_fsRemove_other _ _ _ hne]
    | some b =>
      simp only [downloadPdf]
      split
      · rfl
      · rw [fsLookup_fsRemove_other _ _ _ hne, fsLookup_fsWrite_other _ _ _ _ hne]

theorem downloadPdf_fail (st : Store) (fs : FS) (arxivId : String)
    (fetch : FetchOutcome) (now : Nat) (p₀ : Paper)
    (hp₀ : getPaperByArxivId st arxivId = some p₀)
    (hnofile : fsLookup fs (pdfPathOf arxivId) = none)
    (hfail : fetchFails fetch = true) :
    (∃ q, getPaperByArxivId (downloadPdf st fs arxivId fetch now).1 arxivId = some q ∧
      q.status = "pdf_failed") ∧
    fsLookup (downloadPdf st fs arxivId fetch now).2.1 (pdfPathOf arxivId) = none ∧
    (downloadPdf st fs arxivId fetch now).2.2 = none := by
  have hcond : ¬((fsLookup fs (pdfPathOf arxivId)).isSome = true) := by
    rw [hnofile]
    simp
  cases fetch with
  | success b =>
    have hb : b = 0 := by simpa [fetchFails] using hfail
    subst hb
    simp only [downloadPdf]
    rw [if_neg hcond, if_neg (by omega)]
    exact ⟨⟨_, getPaper_upd_upd_self st arxivId _ _ now p₀ hp₀, rfl⟩,
      fsLookup_fsRemove_self _ _, rfl⟩
  | httpError c =>
    simp only [downloadPdf]
    rw [if_neg hcond]
    exact ⟨⟨_, getPaper_upd_upd_self st arxivId _ _ now p₀ hp₀, rfl⟩,
      fsLookup_fsRemove_self _ _, rfl⟩
  | netError pb =>
    simp only [downloadPdf]
    rw [if_neg hcond]
    exact ⟨⟨_, getPaper_upd_upd_self st arxivId _ _ now p₀ hp₀, rfl⟩,
      fsLookup_fsRemove_self _ _, rfl⟩

theorem downloadPdf_ok (st : Store) (fs : FS) (arxivId : String) (now : Nat)
    (b : Nat) (p₀ : Paper)
    (hp₀ : getPaperByArxivId st arxivId = some p₀)
    (hnofile : fsLookup fs (pdfPathOf arxivId) = none)
    (hb : 0 < b) :
    (∃ q, getPaperByArxivId (downloadPdf st fs arxivId (.success b) now).1 arxivId = some q ∧
      q.status = "pdf_downloaded" ∧ q.pdf_path = some (pdfPathOf arxivId)) ∧
    fsLookup (downloadPdf st fs arxivId (.success b) now).2.1 (pdfPathOf arxivId) = some b ∧
    (downloadPdf st fs arxivId (.success b) now).2.2 = some (pdfPathOf arxivId) := by
  have hcond : ¬((fsLookup fs (pdfPathOf arxivId)).isSome = true) := by
    rw [hnofile]
    simp
  simp only [downloadPdf]
  rw [if_neg hcond, if_pos hb]
  exact ⟨⟨_, getPaper_upd_upd_self st arxivId _ _ now p₀ hp₀, rfl, rfl⟩,
    fsLookup_fsWrite_self _ _ _, rfl⟩

theorem runDownloadTasks_frame (fetch : String → FetchOutcome) (now : Nat) :
    ∀ (tasks : List Paper) (st : Store) (fs : FS) (other : String),
      other ∉ tasks.map Paper.arxiv_id →
      getPaperByArxivId (runDownloadTasks fetch now tasks st fs).1 other
        = getPaperByArxivId st other ∧
      fsLookup (runDownloadTasks fetch now tasks st fs).2.1 (pdfPathOf other)
        = fsLookup fs (pdfPathOf other) := by
  intro tasks
  induction tasks with
  | nil => intro st fs other _; exact ⟨rfl, rfl⟩
  | cons t rest ih =>
    intro st fs other hother
    simp only [List.map, List.mem_cons, not_or] at hother
    have hstep := ih (downloadPdf st fs t.arxiv_id (fetch t.arxiv_id) now).1
      (downloadPdf st fs t.arxiv_id (fetch t.arxiv_id) now).2.1 other hother.2
    refine ⟨?_, ?_⟩
    · show getPaperByArxivId (runDownloadTasks fetch now rest
        (downloadPdf st fs t.arxiv_id (fetch t.arxiv_id) now).1
        (downloadPdf st fs t.arxiv_id (fetch t.arxiv_id) now).2.1).1 other = _
      rw [hstep.1, getPaperByArxivId_downloadPdf_other _ _ _ _ _ _ hother.1]
    · show fsLookup (runDownloadTasks fetch now rest
        (downloadPdf st fs t.arxiv_id (fetch t.arxiv_id) now).1
        (downloadPdf st fs t.arxiv_id (fetch t.arxiv_id) now).2.1).2.1 (pdfPathOf other) = _
      rw [hstep.2, fsLookup_downloadPdf_other _ _ _ _ _ _
        (fun h => hother.1 (pdfPathOf_inj h))]

theorem runDownloadTasks_outcomes (fetch : String → FetchOutcome) (now : Nat) :
    ∀ (tasks : List Paper) (st : Store) (fs : FS),
      (tasks.map Paper.arxiv_id).Nodup →
      (∀ p ∈ tasks, (getPaperByArxivId st p.arxiv_id).isSome
        ∧ fsLookup fs (pdfPathOf p.arxiv_id) = none) →
      (runDownloadTasks fetch now tasks st fs).2.2.length = tasks.length ∧
      ∀ p ∈ tasks,
        (fetchFails (fetch p.arxiv_id) = true →
          (∃ q, getPaperByArxivId (runDownloadTasks fetch now tasks st fs).1 p.arxiv_id
              = some q ∧ q.status = "pdf_failed") ∧
          fsLookup (runDownloadTasks fetch now tasks st fs).2.1 (pdfPathOf p.arxiv_id)
            = none) ∧
        (∀ b, fetch p.arxiv_id = .success b → 0 < b →
          (∃ q, getPaperByArxivId (runDownloadTasks fetch now tasks st fs).1 p.arxiv_id
              = some q ∧ q.status = "pdf_downloaded"
              ∧ q.pdf_path = some (pdfPathOf p.arxiv_id)) ∧
          fsLookup (runDownloadTasks fetch now tasks st fs).2.1 (pdfPathOf p.arxiv_id)
            = some b) := by
  intro tasks
  induction tasks with
  | nil => intro st fs _ _; exact ⟨rfl, fun p hp => absurd hp (List.not_mem_nil p)⟩
  | cons t rest ih =>
    intro st fs hnodup hpre
    have hnodup0 : t.arxiv_id ∉ rest.map Paper.arxiv_id ∧
        (rest.map Paper.arxiv_id).Nodup := by
      rw [List.map_cons, List.nodup_cons] at hnodup
      exact hnodup
    have hpre0 := hpre t (List.mem_cons_self _ _)
    obtain ⟨p₀, hp₀⟩ := Option.isSome_iff_exists.mp hpre0.1
    have hpreserve : ∀ p ∈ rest,
        (getPaperByArxivId (downloadPdf st fs t.arxiv_id (fetch t.arxiv_id) now).1
          p.arxiv_id).isSome ∧
        fsLookup (downloadPdf st fs t.arxiv_id (fetch t.arxiv_id) now).2.1
          (pdfPathOf p.arxiv_id) = none := by
      intro p hp
      have hpne : p.arxiv_id ≠ t.arxiv_id := by
        intro h
        exact hnodup0.1 (h ▸ List.mem_map_of_mem Paper.arxiv_id hp)
      constructor
      · rw [getPaperByArxivId_downloadPdf_other _ _ _ _ _ _ hpne]
        exact (hpre p (List.mem_cons_of_mem _ hp)).1
      · rw [fsLookup_downloadPdf_other _ _ _ _ _ _ (fun h => hpne (pdfPathOf_inj h))]
        exact (hpre p (List.mem_cons_of_mem _ hp)).2
    have hrest := ih (downloadPdf st fs t.arxiv_id (fetch t.arxiv_id) now).1
      (downloadPdf st fs t.arxiv_id (fetch t.arxiv_id) now).2.1 hnodup0.2 hpreserve
    constructor
    · show ((downloadPdf st fs t.arxiv_id (fetch t.arxiv_id) now).2.2
        :: (runDownloadTasks fetch now rest
          (downloadPdf st fs t.arxiv_id (fetch t.arxiv_id) now).1
          (downloadPdf st fs t.arxiv_id (fetch t.arxiv_id) now).2.1).2.2).length
        = (t :: rest).length
      rw [List.length_cons, List.length_cons, hrest.1]
    · intro p hp
      rcases List.mem_cons.mp hp with rfl | hmem
      · have hframe := runDownloadTasks_frame fetch now rest
          (downloadPdf st fs p.arxiv_id (fetch p.arxiv_id) now).1
          (downloadPdf st fs p.arxiv_id (fetch p.arxiv_id) now).2.1
          p.arxiv_id hnodup0.1
        constructor
        · intro hfail
          have hd := downloadPdf_fail st fs p.arxiv_id (fetch p.arxiv_id) now p₀
            hp₀ hpre0.2 hfail
          refine ⟨?_, ?_⟩
          · show ∃ q, getPaperByArxivId (runDownloadTasks fetch now rest
              (downloadPdf st fs p.arxiv_id (fetch p.arxiv_id) now).1
              (downloadPdf st fs p.arxiv_id (fetch p.arxiv_id) now).2.1).1 p.arxiv_id
              = some q ∧ q.status = "pdf_failed"
            rw [hframe.1]
            exact hd.1
          · show fsLookup (runDownloadTasks fetch now rest
              (downloadPdf st fs p.arxiv_id (fetch p.arxiv_id) now).1
              (downloadPdf st fs p.arxiv_id (fetch p.arxiv_id) now).2.1).2.1
              (pdfPathOf p.arxiv_id) = none
            rw [hframe.2]
            exact hd.2.1
        · intro b hb hbpos
          have hd := downloadPdf_ok st fs p.arxiv_id now b p₀ hp₀ hpre0.2 hbpos
          refine ⟨?_, ?_⟩
          · show ∃ q, getPaperByArxivId (runDownloadTasks fetch now rest
              (downloadPdf st fs p.arxiv_id (fetch p.arxiv_id) now).1
              (downloadPdf st fs p.arxiv_id (fetch p.arxiv_id) now).2.1).1 p.arxiv_id
              = some q ∧ q.status = "pdf_downloaded" ∧ q.pdf_path = some (pdfPathOf p.arxiv_id)
            rw [hframe.1, hb]
            exact hd.1
          · show fsLookup (runDownloadTasks fetch now rest
              (downloadPdf st fs p.arxiv_id (fetch p.arxiv_id) now).1
              (downloadPdf st fs p.arxiv_id (fetch p.arxiv_id) now).2.1).2.1
              (pdfPathOf p.arxiv_id) = some b
            rw [hframe.2, hb]
            exact hd.2.1
      · exact hrest.2 p hmem

/-- C5: in the download stage, a batch item whose fetch fails (non-200
response, empty body, or network/timeout error) is marked `pdf_failed` and
no artifact for it remains on disk; every sibling item whose fetch succeeds
with a non-empty body reaches `pdf_downloaded` with its artifact path
recorded; and the batch call returns normally, yielding one non-exception
outcome per task instead of raising. -/
theorem downloadPdfsForPapers_fault_isolation (fetch : String → FetchOutcome) (now : Nat)
    (papers : List Paper) (st : Store) (fs : FS)
    (hnodup : ((papers.filter fun p => p.pdf_url.isSome).map Paper.arxiv_id).Nodup)
    (hpre : ∀ p ∈ papers.filter (fun p => p.pdf_url.isSome),
      (getPaperByArxivId st p.arxiv_id).isSome
        ∧ fsLookup fs (pdfPathOf p.arxiv_id) = none) :
    (downloadPdfsForPapers st fs papers fetch now).2.2.length
      = (papers.filter fun p => p.pdf_url.isSome).length ∧
    ∀ p ∈ papers.filter (fun p => p.pdf_url.isSome),
      (fetchFails (fetch p.arxiv_id) = true →
        (∃ q, getPaperByArxivId (downloadPdfsForPapers st fs papers fetch now).1 p.arxiv_id
            = some q ∧ q.status = "pdf_failed") ∧
        fsLookup (downloadPdfsForPapers st fs papers fetch now).2.1 (pdfPathOf p.arxiv_id)
          = none) ∧
      (∀ b, fetch p.arxiv_id = .success b → 0 < b →
        (∃ q, getPaperByArxivId (downloadPdfsForPapers st fs papers fetch now).1 p.arxiv_id
            = some q ∧ q.status = "pdf_downloaded"
            ∧ q.pdf_path = some (pdfPathOf p.arxiv_id)) ∧
        fsLookup (downloadPdfsForPapers st fs papers fetch now).2.1 (pdfPathOf p.arxiv_id)
          = some b) :=
  runDownloadTasks_outcomes fetch now
    (papers.filter fun p => p.pdf_url.isSome) st fs hnodup hpre

def paperW6 : Paper :=
  { arxiv_id := "2105.00001", title := "t6", authors := "a", abstract := "s6",
    published_date := none, arxiv_url := "u6", pdf_url := some "pu6", pdf_path := none,
    status := "relevant", research_topic := some "T", relevance_score := some 90,
    relevance_reason := some "r6", improvement_category := none,
    search_session_id := some 1, updated_at := 0 }

def paperW7 : Paper :=
  { arxiv_id := "2105.00002", title := "t7", authors := "b", abstract := "s7",
    published_date := none, arxiv_url := "u7", pdf_url := some "pu7", pdf_path := none,
    status := "relevant", research_topic := some "T", relevance_score := some 80,
    relevance_reason := some "r7", improvement_category := none,
    search_session_id := some 1, updated_at := 0 }

def paperW8 : Paper :=
  { arxiv_id := "2105.00003", title := "t8", authors := "c", abstract := "s8",
    published_date := none, arxiv_url := "u8", pdf_url := some "pu8", pdf_path := none,
    status := "relevant", research_topic := some "T", relevance_score := some 70,
    relevance_reason := some "r8", improvement_category := none,
    search_session_id := some 1, updated_at := 0 }

/-- The fetch behaviour for the C5 witness: the middle paper's fetch gets a
404, the siblings stream 1000 bytes. -/
def fetchW : String → FetchOutcome := fun arxivId =>
  if arxivId = "2105.00002" then .httpError 404 else .success 1000

/-- Witness for `downloadPdfsForPapers_fault_isolation`: in a batch of
three, the item with the failing fetch ends `pdf_failed` with no artifact
on disk, both siblings end `pdf_downloaded`, and the batch yields three
non-exception outcomes. -/
theorem downloadPdfsForPapers_fault_isolation_witness :
    (downloadPdfsForPapers [paperW6, paperW7, paperW8] []
        [paperW6, paperW7, paperW8] fetchW 9).2.2.length = 3 ∧
    (∃ q, getPaperByArxivId (downloadPdfsForPapers [paperW6, paperW7, paperW8] []
        [paperW6, paperW7, paperW8] fetchW 9).1 "2105.00002" = some q ∧
      q.status = "pdf_failed") ∧
    fsLookup (downloadPdfsForPapers [paperW6, paperW7, paperW8] []
        [paperW6, paperW7, paperW8] fetchW 9).2.1 (pdfPathOf "2105.00002") = none ∧
    (∃ q, getPaperByArxivId (downloadPdfsForPapers [paperW6, paperW7, paperW8] []
        [paperW6, paperW7, paperW8] fetchW 9).1 "2105.00001" = some q ∧
      q.status = "pdf_downloaded" ∧ q.pdf_path = some (pdfPathOf "2105.00001")) ∧
    (∃ q, getPaperByArxivId (downloadPdfsForPapers [paperW6, paperW7, paperW8] []
        [paperW6, paperW7, paperW8] fetchW 9).1 "2105.00003" = some q ∧
      q.status = "pdf_downloaded" ∧ q.pdf_path = some (pdfPathOf "2105.00003")) := by
  have h := downloadPdfsForPapers_fault_isolation fetchW 9 [paperW6, paperW7, paperW8]
    [paperW6, paperW7, paperW8] [] (by decide) (by decide)
  have h7 := (h.2 paperW7 (by decide)).1 (by decide)
  have h6 := (h.2 paperW6 (by decide)).2 1000 (by decide) (by decide)
  have h8 := (h.2 paperW8 (by decide)).2 1000 (by decide) (by decide)
  refine ⟨?_, h7.1, h7.2, ⟨h6.1.choose, h6.1.choose_spec.1, h6.1.choose_spec.2.1,
    h6.1.choose_spec.2.2⟩, ⟨h8.1.choose, h8.1.choose_spec.1, h8.1.choose_spec.2.1,
    h8.1.choose_spec.2.2⟩⟩
  rw [h.1]
  decide

/-! ## The iterative search+screen funnel (main.py lines 197-250)

`main` fixes `batch_size = max_search`, `max_total_search = 500` (the
global ceiling) and `relevant_target = max_analysis`, then loops: search a
batch (which deduplicates and inserts), stop if it was empty, screen it,
re-count the `relevant` rows for the *current session* (line 232 passes
`session_id`, so the count is session-scoped), stop when that count meets
the target, stop when the cumulative searched count has reached the
ceiling, else advance the offset by one batch.  `fetch maxResults offset`
is the raw result stream the arXiv client yields for one query. -/

inductive StopReason where
  | exhausted
  | targetMet
  | ceilingHit
  deriving Repr, DecidableEq

structure LoopState where
  offset : Nat
  totalSearched : Nat
  store : Store
  deriving Repr, DecidableEq

/-- One iteration of the `while True` loop: either a final result
`(store, total_searched, stop reason)` or the state for the next
iteration. -/
def searchLoopStep (fetch : Nat → Nat → List ArxivResult) (oracle : Paper → ScreenOutcome)
    (sid : Nat) (topic : String) (batchSize target now ceiling : Nat)
    (s : LoopState) : (Store × Nat × StopReason) ⊕ LoopState :=
  let sr := searchPapers sid s.offset (fetch batchSize s.offset) s.store
  let total := s.totalSearched + sr.2.length
  if sr.2.length = 0 then .inl (sr.1, total, .exhausted)
  else
    let store2 := processAbstractScreening oracle sr.1 sr.2 topic now
    if (getPapersByStatus store2 "relevant" (some sid) none).length ≥ target then
      .inl (store2, total, .targetMet)
    else if total ≥ ceiling then .inl (store2, total, .ceilingHit)
    else .inr ⟨s.offset + batchSize, total, store2⟩

theorem searchLoopStep_inr (fetch : Nat → Nat → List ArxivResult)
    (oracle : Paper → ScreenOutcome) (sid : Nat) (topic : String)
    (batchSize target now ceiling : Nat) (s s' : LoopState)
    (h : searchLoopStep fetch oracle sid topic batchSize target now ceiling s = .inr s') :
    s.totalSearched < s'.totalSearched ∧ s'.totalSearched < ceiling := by
  unfold searchLoopStep at h
  simp only [] at h
  split at h
  · simp at h
  · split at h
    · simp at h
    · split at h
      · simp at h
      · rename_i hlen _ hceil
        obtain ⟨o', t', st'⟩ := s'
        injection h with h'
        injection h' with h1 h2 h3
        subst h2
        exact ⟨by dsimp only; omega, by dsimp only; omega⟩

/-- The `while True` loop of main.py lines 211-248: iterate
`searchLoopStep` until it stops.  Its totality (this definition is
accepted by well-founded recursion on `ceiling - totalSearched`) is the
termination half of claim C2: each non-final iteration discovered at least
one new paper, so the searched total strictly grows toward the ceiling. -/
def runSearchLoop (fetch : Nat → Nat → List ArxivResult) (oracle : Paper → ScreenOutcome)
    (sid : Nat) (topic : String) (batchSize target now ceiling : Nat)
    (s : LoopState) : Store × Nat × StopReason :=
  match h : searchLoopStep fetch oracle sid topic batchSize target now ceiling s with
  | .inl r => r
  | .inr s' => runSearchLoop fetch oracle sid topic batchSize target now ceiling s'
termination_by ceiling - s.totalSearched
decreasing_by
  have := searchLoopStep_inr fetch oracle sid topic batchSize target now ceiling s s' h
  omega

theorem runSearchLoop_of_inl (fetch : Nat → Nat → List ArxivResult)
    (oracle : Paper → ScreenOutcome) (sid : Nat) (topic : String)
    (batchSize target now ceiling : Nat) (s : LoopState) (r : Store × Nat × StopReason)
    (h : searchLoopStep fetch oracle sid topic batchSize target now ceiling s = .inl r) :
    runSearchLoop fetch oracle sid topic batchSize target now ceiling s = r := by
  rw [runSearchLoop.eq_def]
  split
  · rename_i r' heq
    rw [h] at heq
    injection heq with heq'
    rw [heq']
  · rename_i s' heq
    rw [h] at heq
    cases heq

theorem runSearchLoop_of_inr (fetch : Nat → Nat → List ArxivResult)
    (oracle : Paper → ScreenOutcome) (sid : Nat) (topic : String)
    (batchSize target now ceiling : Nat) (s s' : LoopState)
    (h : searchLoopStep fetch oracle sid topic batchSize target now ceiling s = .inr s') :
    runSearchLoop fetch oracle sid topic batchSize target now ceiling s
      = runSearchLoop fetch oracle sid topic batchSize target now ceiling s' := by
  rw [runSearchLoop.eq_def]
  split
  · rename_i r heq
    rw [h] at heq
    cases heq
  · rename_i s'' heq
    rw [h] at heq
    injection heq with heq'
    rw [heq']

theorem processResults_length (sid offset : Nat) :
    ∀ (rs : List ArxivResult) (skipped : Nat) (st : Store) (acc : List Paper),
      (processResults sid offset rs skipped st acc).2.length ≤ acc.length + rs.length := by
  intro rs
  induction rs with
  | nil =>
    intro skipped st acc
    simp [processResults]
  | cons r rs ih =>
    intro skipped st acc
    simp only [List.length_cons]
    unfold processResults
    split
    · have := ih (skipped + 1) st acc
      omega
    · split
      · have := ih skipped st acc
        omega
      · dsimp only
        split
        · rename_i st' haddPaper
          have := ih skipped st' (acc ++ [parseArxivResult r (some sid)])
          rw [List.length_append, List.length_singleton] at this
          omega
        · dsimp only
          omega

theorem searchPapers_length_le (sid offset : Nat) (results : List ArxivResult) (st : Store) :
    (searchPapers sid offset results st).2.length ≤ results.length := by
  have := processResults_length sid offset results 0 st []
  simpa [searchPapers] using this

theorem searchLoopStep_inl_spec (fetch : Nat → Nat → List ArxivResult)
    (oracle : Paper → ScreenOutcome) (sid : Nat) (topic : String)
    (batchSize target now ceiling : Nat) (s : LoopState) (r : Store × Nat × StopReason)
    (hfetch : ∀ maxResults off, (fetch maxResults off).length ≤ maxResults)
    (htot : s.totalSearched ≤ ceiling)
    (h : searchLoopStep fetch oracle sid topic batchSize target now ceiling s = .inl r) :
    r.2.1 ≤ ceiling + batchSize ∧
    (r.2.2 = .ceilingHit → ceiling ≤ r.2.1) ∧
    (r.2.2 = .targetMet →
      target ≤ (getPapersByStatus r.1 "relevant" (some sid) none).length) := by
  have hlen : (searchPapers sid s.offset (fetch batchSize s.offset) s.store).2.length
      ≤ batchSize :=
    le_trans (searchPapers_length_le sid s.offset _ s.store) (hfetch batchSize s.offset)
  unfold searchLoopStep at h
  simp only [] at h
  split at h
  · injection h with h'
    subst h'
    refine ⟨by dsimp only; omega, ?_, ?_⟩ <;> (intro hr; simp at hr)
  · split at h
    · rename_i hcount
      injection h with h'
      subst h'
      refine ⟨by dsimp only; omega, ?_, fun _ => hcount⟩
      intro hr
      simp at hr
    · split at h
      · rename_i hceil
        injection h with h'
        subst h'
        refine ⟨by dsimp only; omega, fun _ => hceil, ?_⟩
        intro hr
        simp at hr
      · cases h

/-- C2: for every search adapter whose batches respect the requested
`max_results` bound and every classifier, the iterative search+screen loop
terminates (`runSearchLoop` is total, by well-founded recursion on the gap
to the ceiling), and stops only as the code's three circuit breakers
dictate: when it reports the ceiling was hit the cumulative searched count
has indeed reached the ceiling, when it reports the target was met the
relevant count has indeed reached the target, and in every case the
cumulative searched count exceeds the ceiling by less than one batch
(`total ≤ ceiling + batchSize`).  (A batch with zero new items is the
remaining stop, `exhausted`.) -/
theorem runSearchLoop_funnel_bounds (fetch : Nat → Nat → List ArxivResult)
    (oracle : Paper → ScreenOutcome) (sid : Nat) (topic : String)
    (batchSize target now ceiling : Nat)
    (hfetch : ∀ maxResults off, (fetch maxResults off).length ≤ maxResults) :
    ∀ s : LoopState, s.totalSearched ≤ ceiling →
      (runSearchLoop fetch oracle sid topic batchSize target now ceiling s).2.1
        ≤ ceiling + batchSize ∧
      ((runSearchLoop fetch oracle sid topic batchSize target now ceiling s).2.2
          = .ceilingHit →
        ceiling ≤ (runSearchLoop fetch oracle sid topic batchSize target now ceiling s).2.1) ∧
      ((runSearchLoop fetch oracle sid topic batchSize target now ceiling s).2.2
          = .targetMet →
        target ≤ (getPapersByStatus
          (runSearchLoop fetch oracle sid topic batchSize target now ceiling s).1
          "relevant" (some sid) none).length) := by
  have H : ∀ (m : Nat) (s : LoopState), ceiling - s.totalSearched = m →
      s.totalSearched ≤ ceiling →
      (runSearchLoop fetch oracle sid topic batchSize target now ceiling s).2.1
        ≤ ceiling + batchSize ∧
      ((runSearchLoop fetch oracle sid topic batchSize target now ceiling s).2.2
          = .ceilingHit →
        ceiling ≤ (runSearchLoop fetch oracle sid topic batchSize target now ceiling s).2.1) ∧
      ((runSearchLoop fetch oracle sid topic batchSize target now ceiling s).2.2
          = .targetMet →
        target ≤ (getPapersByStatus
          (runSearchLoop fetch oracle sid topic batchSize target now ceiling s).1
          "relevant" (some sid) none).length) := by
    intro m
    induction m using Nat.strong_induction_on with
    | _ m ih =>
      intro s hm htot
      cases hstep : searchLoopStep fetch oracle sid topic batchSize target now ceiling s with
      | inl r =>
        rw [runSearchLoop_of_inl _ _ _ _ _ _ _ _ _ _ hstep]
        exact searchLoopStep_inl_spec _ _ _ _ _ _ _ _ _ _ hfetch htot hstep
      | inr s' =>
        rw [runSearchLoop_of_inr _ _ _ _ _ _ _ _ _ _ hstep]
        have hd := searchLoopStep_inr _ _ _ _ _ _ _ _ _ _ hstep
        exact ih (ceiling - s'.totalSearched) (by omega) s' rfl (by omega)
  intro s htot
  exact H (ceiling - s.totalSearched) s rfl htot

/-- A synthetic adapter respecting the `max_results` bound: one fresh item
on the first page, nothing afterwards. -/
def fetchOne : Nat → Nat → List ArxivResult := fun maxResults off =>
  if maxResults = 0 then [] else if off = 0 then [resultNoV] else []

/-- A classifier marking everything relevant. -/
def oracleRel : Paper → ScreenOutcome := fun _ => .ok 90 true "match"

theorem fetchOne_bounded : ∀ maxResults off, (fetchOne maxResults off).length ≤ maxResults := by
  intro maxResults off
  unfold fetchOne
  split
  · simp
  · split
    · simp
      omega
    · simp

/-- Witness for `runSearchLoop_funnel_bounds` on a concrete run. -/
theorem runSearchLoop_funnel_bounds_witness :
    (runSearchLoop fetchOne oracleRel 1 "T" 1 1 4 500 ⟨0, 0, []⟩).2.1 ≤ 500 + 1 ∧
    ((runSearchLoop fetchOne oracleRel 1 "T" 1 1 4 500 ⟨0, 0, []⟩).2.2 = .ceilingHit →
      500 ≤ (runSearchLoop fetchOne oracleRel 1 "T" 1 1 4 500 ⟨0, 0, []⟩).2.1) ∧
    ((runSearchLoop fetchOne oracleRel 1 "T" 1 1 4 500 ⟨0, 0, []⟩).2.2 = .targetMet →
      1 ≤ (getPapersByStatus (runSearchLoop fetchOne oracleRel 1 "T" 1 1 4 500 ⟨0, 0, []⟩).1
        "relevant" (some 1) none).length) :=
  runSearchLoop_funnel_bounds fetchOne oracleRel 1 "T" 1 1 4 500 fetchOne_bounded
    ⟨0, 0, []⟩ (by decide)

/-- C1 (amended): the count consulted after each screened batch is the
number of rows currently in `relevant` status for the CURRENT SESSION —
main.py line 232 calls `get_papers_by_status('relevant', session_id)`, the
session-scoped query — and, for a batch with new items, the loop stops with
the target-met result exactly when this session-scoped count meets or
exceeds the target.  (The cross-session, topic-scoped query is used only by
the later selection stage, main.py line 266.) -/
theorem searchLoopStep_target_uses_session_count (fetch : Nat → Nat → List ArxivResult)
    (oracle : Paper → ScreenOutcome) (sid : Nat) (topic : String)
    (batchSize target now ceiling : Nat) (s : LoopState)
    (hne : (searchPapers sid s.offset (fetch batchSize s.offset) s.store).2.length ≠ 0) :
    (searchLoopStep fetch oracle sid topic batchSize target now ceiling s
        = .inl (processAbstractScreening oracle
            (searchPapers sid s.offset (fetch batchSize s.offset) s.store).1
            (searchPapers sid s.offset (fetch batchSize s.offset) s.store).2 topic now,
          s.totalSearched
            + (searchPapers sid s.offset (fetch batchSize s.offset) s.store).2.length,
          .targetMet))
      ↔ target ≤ (getPapersByStatus (processAbstractScreening oracle
            (searchPapers sid s.offset (fetch batchSize s.offset) s.store).1
            (searchPapers sid s.offset (fetch batchSize s.offset) s.store).2 topic now)
          "relevant" (some sid) none).length := by
  unfold searchLoopStep
  simp only []
  rw [if_neg hne]
  by_cases hc : target ≤ (getPapersByStatus (processAbstractScreening oracle
      (searchPapers sid s.offset (fetch batchSize s.offset) s.store).1
      (searchPapers sid s.offset (fetch batchSize s.offset) s.store).2 topic now)
      "relevant" (some sid) none).length
  · rw [if_pos hc]
    exact ⟨fun _ => hc, fun _ => rfl⟩
  · rw [if_neg hc]
    constructor
    · intro h
      split at h <;> simp at h
    · intro h
      exact absurd h hc

/-- Fresh arXiv results for the C1 run. -/
def resultC1a : ArxivResult :=
  { entry_id := "http://arxiv.org/abs/2201.00001", title := "c1a", authors := "x",
    summary := "sa", published := none, pdf_url := some "pa" }

def resultC1b : ArxivResult :=
  { entry_id := "http://arxiv.org/abs/2201.00002", title := "c1b", authors := "y",
    summary := "sb", published := none, pdf_url := some "pb" }

/-- The synthetic adapter for the C1 run: the stream for page 0 holds one
result, later pages repeat it and add a fresh one, so every round
discovers exactly one new paper after offset skipping and deduplication. -/
def fetchC1 : Nat → Nat → List ArxivResult := fun _ off =>
  if off = 0 then [resultC1a] else [resultC1a, resultC1b]

/-- The classifier for the C1 run: everything screens as irrelevant. -/
def oracleIrr : Paper → ScreenOutcome := fun _ => .ok 10 false "no"

/-- A paper of ANOTHER session (id 2) already `relevant` for the same
topic "T". -/
def paperC1Cross : Paper :=
  { arxiv_id := "2112.00001", title := "cross", authors := "z", abstract := "sc",
    published_date := none, arxiv_url := "uc", pdf_url := some "pc", pdf_path := none,
    status := "relevant", research_topic := some "T", relevance_score := some 95,
    relevance_reason := some "rc", improvement_category := none,
    search_session_id := some 2, updated_at := 0 }

/-- C1 counterexample: running the loop body for session 1, topic "T",
target 1, on a store that already holds a `relevant` paper for topic "T"
from session 2: after the first batch is screened the cross-session
relevant count for the topic is 1 ≥ target, so by the claim the loop must
stop with the target met — but the step continues to another search round
(`Sum.inr`), because the count the code consults is the session-scoped one,
which is 0. -/
theorem searchLoop_count_not_cross_session :
    1 ≤ (getPapersByStatus [paperC1Cross] "relevant" none (some "T")).length ∧
    1 ≤ (getPapersByStatus
      ((searchLoopStep fetchC1 oracleIrr 1 "T" 1 1 5 2 ⟨0, 0, [paperC1Cross]⟩).getRight?.getD
        ⟨0, 0, []⟩).store "relevant" none (some "T")).length ∧
    (getPapersByStatus
      ((searchLoopStep fetchC1 oracleIrr 1 "T" 1 1 5 2 ⟨0, 0, [paperC1Cross]⟩).getRight?.getD
        ⟨0, 0, []⟩).store "relevant" (some 1) none).length = 0 ∧
    (searchLoopStep fetchC1 oracleIrr 1 "T" 1 1 5 2 ⟨0, 0, [paperC1Cross]⟩).isRight = true := by
  decide

/-- Witness for `searchLoopStep_target_uses_session_count`: with a
classifier that marks the one discovered paper relevant and target 1, the
session-scoped count reaches 1 and the step stops with the target met. -/
theorem searchLoopStep_target_uses_session_count_witness :
    searchLoopStep fetchC1 oracleRel 1 "T" 1 1 4 500 ⟨0, 0, []⟩
      = .inl (processAbstractScreening oracleRel
          (searchPapers 1 0 (fetchC1 1 0) []).1
          (searchPapers 1 0 (fetchC1 1 0) []).2 "T" 4,
        0 + (searchPapers 1 0 (fetchC1 1 0) []).2.length,
        .targetMet) :=
  (searchLoopStep_target_uses_session_count fetchC1 oracleRel 1 "T" 1 1 4 500
    ⟨0, 0, []⟩ (by decide)).mpr (by decide)

/-! ## Selection / ranking (main.py lines 263-281)

The download step first gathers all `relevant` rows for the topic across
sessions, drops those under the threshold, sorts by score descending
(Python's `sorted(..., key=score, reverse=True)` is stable: rows with equal
scores keep their store order, which is discovery order), keeps the first
`max_analysis`, and demotes the rest to `irrelevant`, appending a
rank-exclusion note to the existing rationale. -/

/-- `x.get('relevance_score', 0)` (main.py lines 268 and 270). -/
def scoreOf (p : Paper) : ℚ := p.relevance_score.getD 0

/-- The comparator realised by `sorted(..., key=score, reverse=True)`:
`a` may come before `b` when `a`'s score is at least `b`'s.  A stable
insertion sort under this relation reproduces Python's stable descending
sort exactly. -/
def scoreDescOrder (a b : Paper) : Prop := scoreOf b ≤ scoreOf a

instance : DecidableRel scoreDescOrder := fun a b =>
  inferInstanceAs (Decidable (scoreOf b ≤ scoreOf a))

instance : IsTotal Paper scoreDescOrder :=
  ⟨fun a b => le_total (scoreOf b) (scoreOf a)⟩

instance : IsTrans Paper scoreDescOrder :=
  ⟨fun _ _ _ hab hbc => le_trans hbc hab⟩

/-- The rank-exclusion note appended to the rationale (main.py line 278). -/
def rankNote (maxAnalysis : Nat) : String :=
  " [未进入精读: 排名>" ++ toString maxAnalysis ++ "]"

/-- The demotion loop over the rank-excluded papers (main.py lines
274-279). -/
def demoteExcluded (maxAnalysis now : Nat) : List Paper → Store → Store
  | [], st => st
  | p :: rest, st =>
    demoteExcluded maxAnalysis now rest
      (updatePaper st p.arxiv_id
        { status := some "irrelevant"
          relevance_reason := some ((p.relevance_reason.getD "") ++ rankNote maxAnalysis) }
        now)

/-- The selection stage (main.py lines 263-281): returns the updated store
and the list of papers that go on to download/deep-analysis. -/
def selectionStage (st : Store) (topic : String) (threshold : ℚ) (maxAnalysis : Nat)
    (now : Nat) : Store × List Paper :=
  let allRelevant := getPapersByStatus st "relevant" none (some topic)
  let filtered := allRelevant.filter fun p => decide (threshold ≤ scoreOf p)
  let sortedPapers := filtered.insertionSort scoreDescOrder
  let papersToDownload := sortedPapers.take maxAnalysis
  let excluded := sortedPapers.drop maxAnalysis
  (demoteExcluded maxAnalysis now excluded st, papersToDownload)

theorem filter_orderedInsert_score (s : ℚ) (a : Paper) (l : List Paper) :
    (List.orderedInsert scoreDescOrder a l).filter (fun p => decide (scoreOf p = s))
      = if scoreOf a = s
        then a :: l.filter (fun p => decide (scoreOf p = s))
        else l.filter (fun p => decide (scoreOf p = s)) := by
  rw [List.orderedInsert_eq_take_drop, List.filter_append]
  have htw : (l.takeWhile fun b => decide ¬ scoreDescOrder a b).filter
      (fun p => decide (scoreOf p = s)) = [] ∨ ¬ scoreOf a = s := by
    by_cases ha : scoreOf a = s
    · left
      rw [List.filter_eq_nil_iff]
      intro b hb
      have hb' := List.mem_takeWhile_imp hb
      simp only [decide_eq_true_eq, scoreDescOrder, not_le] at hb'
      simp only [decide_eq_true_eq]
      intro hs
      rw [ha, ← hs] at hb'
      exact lt_irrefl _ hb'
    · right
      exact ha
  by_cases ha : scoreOf a = s
  · rw [if_pos ha]
    rcases htw with htw | hc
    · rw [htw, List.nil_append, List.filter_cons]
      rw [show (decide (scoreOf a = s)) = true from by simp [ha]]
      conv_rhs =>
        rw [← List.takeWhile_append_dropWhile
          (p := fun b => decide ¬ scoreDescOrder a b) (l := l),
          List.filter_append, htw, List.nil_append]
      simp
    · exact absurd ha hc
  · rw [if_neg ha]
    rw [List.filter_cons]
    rw [show (decide (scoreOf a = s)) = false from by simp [ha]]
    conv_rhs =>
      rw [← List.takeWhile_append_dropWhile
        (p := fun b => decide ¬ scoreDescOrder a b) (l := l),
        List.filter_append]
    simp

theorem filter_insertionSort_score (s : ℚ) : ∀ l : List Paper,
    (l.insertionSort scoreDescOrder).filter (fun p => decide (scoreOf p = s))
      = l.filter (fun p => decide (scoreOf p = s)) := by
  intro l
  induction l with
  | nil => rfl
  | cons a l ih =>
    rw [List.insertionSort, filter_orderedInsert_score, List.filter_cons]
    by_cases ha : scoreOf a = s
    · rw [if_pos ha, ih, show (decide (scoreOf a = s)) = true from by simp [ha]]
      simp
    · rw [if_neg ha, ih, show (decide (scoreOf a = s)) = false from by simp [ha]]
      simp

theorem getPaperByArxivId_of_nodup :
    ∀ (st : Store), (st.map Paper.arxiv_id).Nodup →
      ∀ p ∈ st, getPaperByArxivId st p.arxiv_id = some p := by
  intro st
  induction st with
  | nil => intro _ p hp; cases hp
  | cons q tl ih =>
    intro hnodup p hp
    have hnd : q.arxiv_id ∉ tl.map Paper.arxiv_id ∧ (tl.map Paper.arxiv_id).Nodup := by
      rw [List.map_cons, List.nodup_cons] at hnodup
      exact hnodup
    rcases List.mem_cons.mp hp with rfl | hmem
    · simp [getPaperByArxivId, List.find?]
    · have hne : q.arxiv_id ≠ p.arxiv_id := by
        intro h
        exact hnd.1 (h ▸ List.mem_map_of_mem Paper.arxiv_id hmem)
      show ((q :: tl).find? fun r => decide (r.arxiv_id = p.arxiv_id)) = some p
      rw [List.find?_cons_of_neg _ (by simpa using hne)]
      exact ih hnd.2 p hmem

theorem getPaperByArxivId_demoteExcluded_other (maxAnalysis now : Nat) :
    ∀ (l : List Paper) (st : Store) (other : String),
      other ∉ l.map Paper.arxiv_id →
      getPaperByArxivId (demoteExcluded maxAnalysis now l st) other
        = getPaperByArxivId st other := by
  intro l
  induction l with
  | nil => intro st other _; rfl
  | cons p rest ih =>
    intro st other hother
    simp only [List.map, List.mem_cons, not_or] at hother
    show getPaperByArxivId (demoteExcluded maxAnalysis now rest _) other = _
    rw [ih _ _ hother.2, getPaperByArxivId_updatePaper_other _ _ _ _ _ hother.1]

theorem getPaperByArxivId_demoteExcluded_self (maxAnalysis now : Nat) :
    ∀ (l : List Paper) (st : Store) (p p₀ : Paper),
      (l.map Paper.arxiv_id).Nodup → p ∈ l →
      getPaperByArxivId st p.arxiv_id = some p₀ →
      getPaperByArxivId (demoteExcluded maxAnalysis now l st) p.arxiv_id
        = some (applyUpdates p₀
            { status := some "irrelevant"
              relevance_reason := some ((p.relevance_reason.getD "") ++ rankNote maxAnalysis)
              updated_at := some now }) := by
  intro l
  induction l with
  | nil => intro _ _ _ _ hp; cases hp
  | cons q rest ih =>
    intro st p p₀ hnodup hp hp₀
    have hnd : q.arxiv_id ∉ rest.map Paper.arxiv_id ∧ (rest.map Paper.arxiv_id).Nodup := by
      rw [List.map_cons, List.nodup_cons] at hnodup
      exact hnodup
    rcases List.mem_cons.mp hp with rfl | hmem
    · show getPaperByArxivId (demoteExcluded maxAnalysis now rest _) p.arxiv_id = _
      rw [getPaperByArxivId_demoteExcluded_other _ _ _ _ _ hnd.1,
        getPaperByArxivId_updatePaper_self, hp₀]
      rfl
    · have hne : p.arxiv_id ≠ q.arxiv_id := by
        intro h
        exact hnd.1 (h ▸ List.mem_map_of_mem Paper.arxiv_id hmem)
      show getPaperByArxivId (demoteExcluded maxAnalysis now rest _) p.arxiv_id = _
      refine ih _ p p₀ hnd.2 hmem ?_
      rw [getPaperByArxivId_updatePaper_other _ _ _ _ _ hne]
      exact hp₀

/-- C3: the selection stage gathers all `relevant` rows for the topic
across sessions, removes those below the relevance threshold, sorts the
rest by score descending — stably, so rows with tied scores keep their
store (discovery) order — keeps exactly the top `max_analysis`, leaves the
kept rows untouched, and demotes every remaining candidate to `irrelevant`
with the rank-exclusion note appended to (not overwriting) its existing
rationale.  The stage is a pure function of the store, hence
deterministic. -/
theorem selectionStage_spec (st : Store) (topic : String) (threshold : ℚ)
    (maxAnalysis now : Nat) (st' : Store) (kept : List Paper)
    (hnodup : (st.map Paper.arxiv_id).Nodup)
    (hsel : selectionStage st topic threshold maxAnalysis now = (st', kept)) :
    (∀ p ∈ kept, p ∈ st ∧ p.status = "relevant" ∧ p.research_topic = some topic ∧
      threshold ≤ scoreOf p) ∧
    kept.Pairwise scoreDescOrder ∧
    kept.length = min maxAnalysis
      ((getPapersByStatus st "relevant" none (some topic)).filter
        (fun p => decide (threshold ≤ scoreOf p))).length ∧
    (∀ s : ℚ, ∃ rest,
      ((getPapersByStatus st "relevant" none (some topic)).filter
        (fun p => decide (threshold ≤ scoreOf p))).filter (fun p => decide (scoreOf p = s))
        = kept.filter (fun p => decide (scoreOf p = s)) ++ rest) ∧
    (∀ p ∈ st, p.status = "relevant" → p.research_topic = some topic →
      threshold ≤ scoreOf p → p ∉ kept →
      (∀ k ∈ kept, scoreOf p ≤ scoreOf k) ∧
      getPaperByArxivId st' p.arxiv_id = some (applyUpdates p
        { status := some "irrelevant"
          relevance_reason := some ((p.relevance_reason.getD "") ++ rankNote maxAnalysis)
          updated_at := some now })) ∧
    (∀ p ∈ kept, getPaperByArxivId st' p.arxiv_id = getPaperByArxivId st p.arxiv_id) := by
  unfold selectionStage at hsel
  simp only [] at hsel
  injection hsel with hst' hkept
  subst hst'
  subst hkept
  set allRel := getPapersByStatus st "relevant" none (some topic) with hallRel
  set flt := allRel.filter (fun p => decide (threshold ≤ scoreOf p)) with hflt
  set srt := flt.insertionSort scoreDescOrder with hsrt
  have hperm : List.Perm srt flt := List.perm_insertionSort scoreDescOrder flt
  have hsorted : srt.Pairwise scoreDescOrder := List.sorted_insertionSort scoreDescOrder flt
  have hallRelSub : List.Sublist allRel st := by
    rw [hallRel]
    exact List.filter_sublist st
  have hfltSub : List.Sublist flt st := (List.filter_sublist allRel).trans hallRelSub
  have hfltNodup : (flt.map Paper.arxiv_id).Nodup :=
    (hfltSub.map Paper.arxiv_id).nodup hnodup
  have hsrtNodup : (srt.map Paper.arxiv_id).Nodup :=
    ((hperm.map Paper.arxiv_id).nodup_iff).mpr hfltNodup
  have hsplit : srt.take maxAnalysis ++ srt.drop maxAnalysis = srt :=
    List.take_append_drop maxAnalysis srt
  have happnodup : ((srt.take maxAnalysis).map Paper.arxiv_id).Nodup ∧
      ((srt.drop maxAnalysis).map Paper.arxiv_id).Nodup ∧
      List.Disjoint ((srt.take maxAnalysis).map Paper.arxiv_id)
        ((srt.drop maxAnalysis).map Paper.arxiv_id) := by
    rw [← hsplit, List.map_append, List.nodup_append] at hsrtNodup
    exact hsrtNodup
  have hmemflt : ∀ p : Paper, p ∈ flt ↔ p ∈ st ∧ p.status = "relevant" ∧
      p.research_topic = some topic ∧ threshold ≤ scoreOf p := by
    intro p
    rw [hflt, List.mem_filter, hallRel]
    show p ∈ st.filter (fun p => decide (p.status = "relevant"
      ∧ p.research_topic = some topic)) ∧ _ ↔ _
    rw [List.mem_filter]
    simp only [decide_eq_true_eq]
    tauto
  have hmemkept : ∀ p : Paper, p ∈ srt.take maxAnalysis → p ∈ flt := by
    intro p hp
    exact hperm.mem_iff.mp ((List.take_sublist maxAnalysis srt).subset hp)
  refine ⟨?_, ?_, ?_, ?_, ?_, ?_⟩
  · intro p hp
    exact (hmemflt p).mp (hmemkept p hp)
  · exact List.Pairwise.sublist (List.take_sublist maxAnalysis srt) hsorted
  · rw [List.length_take, hperm.length_eq]
  · intro s
    refine ⟨(srt.drop maxAnalysis).filter (fun p => decide (scoreOf p = s)), ?_⟩
    rw [← List.filter_append, hsplit, hsrt, filter_insertionSort_score]
  · intro p hpst hstat htop hthr hnot
    have hpf : p ∈ flt := (hmemflt p).mpr ⟨hpst, hstat, htop, hthr⟩
    have hps : p ∈ srt := hperm.mem_iff.mpr hpf
    have hps2 : p ∈ srt.take maxAnalysis ++ srt.drop maxAnalysis := by
      rw [hsplit]
      exact hps
    have hpdrop : p ∈ srt.drop maxAnalysis := by
      rcases List.mem_append.mp hps2 with h | h
      · exact absurd h hnot
      · exact h
    constructor
    · intro k hk
      have hpw : (srt.take maxAnalysis ++ srt.drop maxAnalysis).Pairwise scoreDescOrder := by
        rw [hsplit]
        exact hsorted
      exact (List.pairwise_append.mp hpw).2.2 k hk p hpdrop
    · exact getPaperByArxivId_demoteExcluded_self maxAnalysis now _ st p p
        happnodup.2.1 hpdrop (getPaperByArxivId_of_nodup st hnodup p hpst)
  · intro p hp
    refine getPaperByArxivId_demoteExcluded_other maxAnalysis now _ st p.arxiv_id ?_
    intro hmem
    exact happnodup.2.2 (List.mem_map_of_mem Paper.arxiv_id hp) hmem

def paperS1 : Paper :=
  { arxiv_id := "2106.00001", title := "w1", authors := "a", abstract := "x1",
    published_date := none, arxiv_url := "v1", pdf_url := some "q1", pdf_path := none,
    status := "relevant", research_topic := some "T", relevance_score := some 91,
    relevance_reason := some "r1", improvement_category := none,
    search_session_id := some 1, updated_at := 0 }

def paperS2 : Paper :=
  { arxiv_id := "2106.00002", title := "w2", authors := "b", abstract := "x2",
    published_date := none, arxiv_url := "v2", pdf_url := some "q2", pdf_path := none,
    status := "relevant", research_topic := some "T", relevance_score := some 72,
    relevance_reason := some "r2", improvement_category := none,
    search_session_id := some 2, updated_at := 0 }

def paperS3 : Paper :=
  { arxiv_id := "2106.00003", title := "w3", authors := "c", abstract := "x3",
    published_date := none, arxiv_url := "v3", pdf_url := some "q3", pdf_path := none,
    status := "relevant", research_topic := some "T", relevance_score := some 72,
    relevance_reason := some "r3", improvement_category := none,
    search_session_id := some 1, updated_at := 0 }

def paperS4 : Paper :=
  { arxiv_id := "2106.00004", title := "w4", authors := "d", abstract := "x4",
    published_date := none, arxiv_url := "v4", pdf_url := some "q4", pdf_path := none,
    status := "relevant", research_topic := some "T", relevance_score := some 50,
    relevance_reason := some "r4", improvement_category := none,
    search_session_id := some 1, updated_at := 0 }

def paperS5 : Paper :=
  { arxiv_id := "2106.00005", title := "w5", authors := "e", abstract := "x5",
    published_date := none, arxiv_url := "v5", pdf_url := some "q5", pdf_path := none,
    status := "relevant", research_topic := some "U", relevance_score := some 99,
    relevance_reason := some "r5", improvement_category := none,
    search_session_id := some 1, updated_at := 0 }

def storeSel : Store := [paperS1, paperS2, paperS3, paperS4, paperS5]

/-- Witness for `selectionStage_spec`: threshold 60, top-2.  The paper of
session 2 with score 72 wins the tie against the later-discovered score-72
paper of session 1; the loser is demoted with the note appended; the kept
rows and the other-topic row are untouched; the below-threshold paper is
not selected. -/
theorem selectionStage_spec_witness :
    ((selectionStage storeSel "T" 60 2 7).2.map Paper.arxiv_id
      = ["2106.00001", "2106.00002"]) ∧
    (∃ q, getPaperByArxivId (selectionStage storeSel "T" 60 2 7).1 "2106.00003" = some q ∧
      q.status = "irrelevant" ∧
      q.relevance_reason = some "r3 [未进入精读: 排名>2]" ∧ q.updated_at = 7) ∧
    getPaperByArxivId (selectionStage storeSel "T" 60 2 7).1 "2106.00001"
      = getPaperByArxivId storeSel "2106.00001" ∧
    ∀ p ∈ (selectionStage storeSel "T" 60 2 7).2, 60 ≤ scoreOf p := by
  have h := selectionStage_spec storeSel "T" 60 2 7
    (selectionStage storeSel "T" 60 2 7).1 (selectionStage storeSel "T" 60 2 7).2
    (by decide) rfl
  have h3 := (h.2.2.2.2.1 paperS3 (by decide) rfl rfl (by decide) (by decide)).2
  have h1 := h.2.2.2.2.2 paperS1 (by decide)
  refine ⟨by decide, ⟨_, h3, by decide, by decide, by decide⟩, h1, ?_⟩
  intro p hp
  exact ((h.1 p hp).2.2.2)
